import Mathlib

/-!
# Oryol Gfx: d3d12 texture factory and GL shader slot indexing

A shallow embedding of

* `code/Modules/Gfx/d3d12/d3d12TextureFactory.cc`
  (`Setup`, `Discard`, `IsValid`, both `SetupResource` overloads,
  `DestroyResource`, `createRenderTarget`, `createFromPixelData`), and
* `code/Modules/Gfx/gl/glResource.h`
  (`glShader::uniformBlockArrayIndex`, `glShader::samplerArrayIndex`).

The factory is stateful C++: the renderer, the two allocators, the display
manager and the texture pool reached through `this->pointers` are gathered in
one explicit `World` value that every operation takes and returns.  A fatal
`o_assert_dbg` and a dereference of a null pointer are the two ways an
operation can fail to return; they are the `Fault` values of `Except`.
The 32-bit float product of the relative-size branch is computed on integers
(`Float32`, `roundF32`): round to nearest, ties to even, 24 significant bits.
-/

namespace Oryol

/-! ## Outcomes -/

/-- The two ways a call can fail to return: a failed `o_assert_dbg`
(taken as enabled, the way the design document reads them: fatal), and a
dereference of a null pointer. -/
inductive Fault where
  | assertion
  | nullDeref
  deriving DecidableEq, Repr

/-- The two `ResourceState::Code` values the factory returns. -/
inductive ResourceState where
  | Valid
  | InvalidState
  deriving DecidableEq, Repr

/-- Rendering of `o_assert_dbg(cond)`. -/
def o_assert_dbg (cond : Bool) : Except Fault Unit :=
  if cond then .ok () else .error Fault.assertion

/-! ## Data model -/

/-- A `PixelFormat::Code`, kept as its numeric code. -/
abbrev PixelFormat := Nat

/-- The two pixel-format tables the factory depends on, neither of them part
of the modelled files; both are parameters of the factory operations.
`IsValidRenderTargetColorFormat` is the static function of `PixelFormat` that
`createRenderTarget` asserts on.  `backendSupports` is modelled from the spec:
the formats the backend supports for a render target or depth buffer, which
`AllocRenderTarget` requires of the format it is given. -/
structure PixelFormats where
  IsValidRenderTargetColorFormat : PixelFormat → Bool
  backendSupports : PixelFormat → Bool

/-- Modelled from the spec: `TextureType` (declared in `GfxTypes.h`, not among
the modelled files); the design document names the shapes 2D, cube and array. -/
inductive TextureType where
  | Texture2D
  | TextureCube
  | TextureArray
  deriving DecidableEq, Repr

/-- Modelled from the spec: the creation mode of a `TextureSetup` (declared in
`TextureSetup.h`, not among the modelled files).  The design document gives
three disjoint creation modes selected once by the setup description
(render target, pixel data, file); `unspecified` is a setup that selected
none of them. -/
inductive SetupMode where
  | unspecified
  | fromFile
  | fromPixelData
  | renderTarget
  deriving DecidableEq, Repr

/-- A 32-bit float (IEEE 754 binary32): `finite m e` is the number `m * 2^e`,
`notFinite` stands for the infinities and NaN.  A `finite m e` that is not
itself a binary32 number denotes the binary32 number nearest to it (see
`Float32.round`). -/
inductive Float32 where
  | finite (m : Int) (e : Int)
  | notFinite
  deriving DecidableEq, Repr

/-- Number of binary digits of `n`, by halving (`fuel` bounds the number of
halvings). -/
def bitLengthAux : Nat → Nat → Nat
  | 0, _ => 0
  | fuel + 1, n => if n = 0 then 0 else bitLengthAux fuel (n / 2) + 1

/-- Number of binary digits of `n`: `2^(bitLength n - 1) ≤ n < 2^(bitLength n)`
for positive `n`. -/
def bitLength (n : Nat) : Nat := bitLengthAux n n

/-- Round the number `m * 2^e` to binary32, to nearest with ties to even:
24 significant bits, the last kept bit no finer than `2^-149` (subnormal
range), and overflow to infinity from `2^128` on. -/
def roundF32 (m e : Int) : Float32 :=
  if m = 0 then Float32.finite 0 0
  else
    let n : Nat := m.natAbs
    -- `2^top ≤ |m * 2^e| < 2^(top+1)`
    let top : Int := e + (bitLength n : Int) - 1
    -- exponent of the last kept bit
    let q : Int := max (top - 23) (-149)
    -- `|m * 2^e| / 2^q`, rounded to an integer
    let k : Nat :=
      if q ≤ e then n * 2 ^ (e - q).toNat
      else
        let s := (q - e).toNat
        let d := n / 2 ^ s
        let r := n % 2 ^ s
        if 2 ^ s < 2 * r ∨ (2 * r = 2 ^ s ∧ d % 2 = 1) then d + 1 else d
    -- `k * 2^q ≥ 2^128`
    if 2 ^ 128 ≤ k * 2 ^ (q + 149).toNat / 2 ^ 149 then Float32.notFinite
    else Float32.finite (if m < 0 then -(k : Int) else (k : Int)) q

/-- The binary32 number a `Float32` value denotes. -/
def Float32.round : Float32 → Float32
  | Float32.finite m e => roundF32 m e
  | Float32.notFinite => Float32.notFinite

/-- The binary32 product: the exact product, rounded. -/
def Float32.mul : Float32 → Float32 → Float32
  | Float32.finite m1 e1, Float32.finite m2 e2 => roundF32 (m1 * m2) (e1 + e2)
  | _, _ => Float32.notFinite

/-- The conversion of an `int32` to float, as the usual arithmetic conversions
do for the left operand of `int * float`. -/
def Float32.ofInt (i : Int) : Float32 := roundF32 i 0

/-- The conversion `int32(x)` of a float: truncation toward zero.  For a value
outside the `int32` range (and for infinities and NaN) the C++ conversion is
undefined; the result taken here is `INT_MIN`, what the x86 conversion
instruction delivers. -/
def Float32.toInt32 : Float32 → Int
  | Float32.finite m e =>
    let t : Int := if 0 ≤ e then m * 2 ^ e.toNat else Int.tdiv m (2 ^ (-e).toNat)
    if -2 ^ 31 ≤ t ∧ t < 2 ^ 31 then t else -2 ^ 31
  | Float32.notFinite => -2 ^ 31

/-- Modelled from the spec: the fields of `TextureSetup` that the factory
reads (`TexType` is the C++ field `Type`).  `RelWidth`/`RelHeight` are the
`float32` fractions of a relative-sized render target. -/
structure TextureSetup where
  mode : SetupMode
  relSize : Bool
  hasDepth : Bool
  hasSharedDepth : Bool
  NumMipMaps : Int
  TexType : TextureType
  ColorFormat : PixelFormat
  DepthFormat : PixelFormat
  Width : Int
  Height : Int
  RelWidth : Float32
  RelHeight : Float32
  DepthRenderTarget : Nat
  deriving DecidableEq

/-- Accessor `TextureSetup::ShouldSetupAsRenderTarget()`. -/
def TextureSetup.ShouldSetupAsRenderTarget (s : TextureSetup) : Bool :=
  decide (s.mode = SetupMode.renderTarget)

/-- Accessor `TextureSetup::ShouldSetupFromPixelData()`. -/
def TextureSetup.ShouldSetupFromPixelData (s : TextureSetup) : Bool :=
  decide (s.mode = SetupMode.fromPixelData)

/-- Accessor `TextureSetup::ShouldSetupFromFile()`. -/
def TextureSetup.ShouldSetupFromFile (s : TextureSetup) : Bool :=
  decide (s.mode = SetupMode.fromFile)

/-- Accessor `TextureSetup::IsRelSizeRenderTarget()`. -/
def TextureSetup.IsRelSizeRenderTarget (s : TextureSetup) : Bool := s.relSize

/-- Accessor `TextureSetup::HasDepth()`. -/
def TextureSetup.HasDepth (s : TextureSetup) : Bool := s.hasDepth

/-- Accessor `TextureSetup::HasSharedDepth()`. -/
def TextureSetup.HasSharedDepth (s : TextureSetup) : Bool := s.hasSharedDepth

/-- The two descriptor-heap regions the texture factory allocates from. -/
inductive DescType where
  | RenderTargetView
  | DepthStencilView
  deriving DecidableEq, Repr

/-- A live descriptor handle: region tag and slot index.  A record field of
type `Option DescHandle` is the C++ `Id`; `none` is the invalid id. -/
structure DescHandle where
  type : DescType
  slot : Nat
  deriving DecidableEq, Repr

/-- The `Id::IsValid()` predicate on a descriptor field of a record. -/
def IsValid (h : Option DescHandle) : Bool := h.isSome

/-- The part of `TextureAttrs` that the factory reads. -/
structure TextureAttrs where
  Width : Int
  Height : Int
  deriving DecidableEq, Repr

/-- The d3d12 texture record.  `d3d12TextureRes` and `d3d12DepthBufferRes` are
`ID3D12Resource*` pointers: `none` is `nullptr`, `some o` points at GPU
object `o`. -/
structure texture where
  Setup : TextureSetup
  textureAttrs : TextureAttrs
  d3d12TextureRes : Option Nat
  d3d12DepthBufferRes : Option Nat
  renderTargetView : Option DescHandle
  depthStencilView : Option DescHandle
  deriving DecidableEq

/-- Modelled from the spec: `texture::Clear()` (defined in `d3d12Resource.cc`,
not among the modelled files) puts the record in its all-unset state: no
color buffer, no depth buffer, both views invalid. -/
def texture.Clear (tex : texture) : texture :=
  { tex with
    d3d12TextureRes := none
    d3d12DepthBufferRes := none
    renderTargetView := none
    depthStencilView := none }

/-- The all-unset state of a record (newly constructed or cleared). -/
def texture.isUnset (tex : texture) : Prop :=
  tex.d3d12TextureRes = none ∧ tex.d3d12DepthBufferRes = none ∧
  tex.renderTargetView = none ∧ tex.depthStencilView = none

instance (tex : texture) : Decidable tex.isUnset := by
  unfold texture.isUnset; infer_instance

/-- One call issued by the factory to a collaborator (renderer, resource
allocator, descriptor allocator, device, COM object), in the order issued. -/
inductive Event where
  | invalidateTextureState
  | AllocRenderTarget (obj : Nat) (width height : Int) (fmt : PixelFormat) (sampleCount : Nat)
  | AddRef (obj : Nat)
  | resReleaseDeferred (frameIndex : Nat) (obj : Nat)
  | Allocate (h : DescHandle)
  | descReleaseDeferred (frameIndex : Nat) (h : DescHandle)
  | CreateRenderTargetView (obj : Nat) (h : DescHandle)
  | CreateDepthStencilView (obj : Nat) (h : DescHandle)
  deriving DecidableEq, Repr

/-- Everything the factory reaches through `this->pointers`:
the renderer (`frameIndex`, resource allocator, descriptor allocator, device),
the display manager (framebuffer size) and the texture pool. -/
structure World where
  frameIndex : Nat
  FramebufferWidth : Int
  FramebufferHeight : Int
  nextObj : Nat
  freeRTV : List Nat
  freeDSV : List Nat
  pool : List texture
  log : List Event
  deriving DecidableEq

/-- The factory object itself: the `isValid` flag (`pointers` is the `World`). -/
structure d3d12TextureFactory where
  isValid : Bool
  deriving DecidableEq, Repr

/-! ## Collaborators -/

/-- Modelled from the spec: `d3d12ResAllocator::AllocRenderTarget` (not among
the modelled files) creates a new GPU object and fails fatally unless
`width > 0`, `height > 0` and the format is one the backend supports for this
usage.  The new object is identified by the allocator's counter, so it
differs from every object created before. -/
def AllocRenderTarget (formats : PixelFormats) (w : World) (width height : Int)
    (fmt : PixelFormat) (sampleCount : Nat) : Except Fault (Nat × World) :=
  if 0 < width ∧ 0 < height ∧ formats.backendSupports fmt = true then
    .ok (w.nextObj,
      { w with
        nextObj := w.nextObj + 1
        log := w.log ++ [Event.AllocRenderTarget w.nextObj width height fmt sampleCount] })
  else .error Fault.assertion

/-- Modelled from the spec: `d3d12ResAllocator::ReleaseDeferred` records the
object for release once frame `frameIndex` has completed; nothing is freed at
the call. -/
def resReleaseDeferred (w : World) (frameIndex : Nat) (obj : Nat) : World :=
  { w with log := w.log ++ [Event.resReleaseDeferred frameIndex obj] }

/-- Modelled from the spec: `d3d12DescAllocator::Allocate` pops a free slot of
the named region and fails fatally when the region is exhausted. -/
def Allocate (w : World) (type : DescType) : Except Fault (DescHandle × World) :=
  match type with
  | DescType.RenderTargetView =>
    match w.freeRTV with
    | [] => .error Fault.assertion
    | slot :: rest =>
      .ok (⟨type, slot⟩, { w with freeRTV := rest, log := w.log ++ [Event.Allocate ⟨type, slot⟩] })
  | DescType.DepthStencilView =>
    match w.freeDSV with
    | [] => .error Fault.assertion
    | slot :: rest =>
      .ok (⟨type, slot⟩, { w with freeDSV := rest, log := w.log ++ [Event.Allocate ⟨type, slot⟩] })

/-- Modelled from the spec: `d3d12DescAllocator::ReleaseDeferred` records the
handle for release once frame `frameIndex` has completed; the slot does not
return to the free list at the call. -/
def descReleaseDeferred (w : World) (frameIndex : Nat) (h : DescHandle) : World :=
  { w with log := w.log ++ [Event.descReleaseDeferred frameIndex h] }

/-- Modelled from the spec: `texturePool->Lookup(id)` gives the record of a
resource id, or `nullptr` when there is none. -/
def Lookup (w : World) (id : Nat) : Option texture := w.pool[id]?

/-- The expression `int32(dim * rel)` of the relative-size branch (lines 126
and 127): the `int32` framebuffer dimension is converted to float, multiplied
with the fraction in binary32, and the product converted to `int32`. -/
def relDim (dim : Int) (rel : Float32) : Int :=
  ((Float32.ofInt dim).mul rel.round).toInt32

/-- The floor of the exact product `dim * rel`, the number the design document
gives for a relative size (this is the statement side of the theorems on
relative sizes, not part of the code); 0 stands in when `rel` is not
finite. -/
def exactFloor (dim : Int) : Float32 → Int
  | Float32.finite m e => if 0 ≤ e then dim * m * 2 ^ e.toNat else (dim * m) / 2 ^ (-e).toNat
  | Float32.notFinite => 0

/-! ## d3d12TextureFactory -/

/-- Method `d3d12TextureFactory::Setup`. -/
def d3d12TextureFactory.Setup (f : d3d12TextureFactory) : Except Fault d3d12TextureFactory := do
  o_assert_dbg (!f.isValid)
  pure { f with isValid := true }

/-- Method `d3d12TextureFactory::Discard`. -/
def d3d12TextureFactory.Discard (f : d3d12TextureFactory) : Except Fault d3d12TextureFactory := do
  o_assert_dbg f.isValid
  pure { f with isValid := false }

/-- Method `d3d12TextureFactory::IsValid`. -/
def d3d12TextureFactory.IsValid (f : d3d12TextureFactory) : Bool := f.isValid

/-- Method `d3d12TextureFactory::createFromPixelData`. -/
def createFromPixelData (tex : texture) (_data : List Nat) (_size : Int) :
    ResourceState × texture :=
  (ResourceState.InvalidState, tex)

/-- Method `d3d12TextureFactory::SetupResource(texture&, const void*, int32)`.
Returns the status code with the record and the world as the call leaves
them. -/
def SetupResourceData (f : d3d12TextureFactory) (w : World) (tex : texture)
    (data : List Nat) (size : Int) : Except Fault (ResourceState × texture × World) := do
  o_assert_dbg f.isValid
  o_assert_dbg (!tex.Setup.ShouldSetupAsRenderTarget)
  o_assert_dbg (!tex.Setup.ShouldSetupFromFile)
  if tex.Setup.ShouldSetupFromPixelData then
    let r := createFromPixelData tex data size
    pure (r.1, r.2, w)
  else
    pure (ResourceState.InvalidState, tex, w)

/-- The size of the new render target and the shared-depth provider pointer,
as computed by the three-way branch of `createRenderTarget` (lines 121 to 138
of `d3d12TextureFactory.cc`).  The pointer is declared as `nullptr` and only
assigned in the branch that looks the provider up; `none` is `nullptr`. -/
def resolveSize (w : World) (setup : TextureSetup) :
    Except Fault (Int × Int × Option texture) :=
  if setup.IsRelSizeRenderTarget then
    .ok (relDim w.FramebufferWidth setup.RelWidth,
         relDim w.FramebufferHeight setup.RelHeight, none)
  else if setup.HasSharedDepth then
    match Lookup w setup.DepthRenderTarget with
    | none => .error Fault.assertion
    | some sharedDepthProvider =>
      .ok (sharedDepthProvider.textureAttrs.Width,
           sharedDepthProvider.textureAttrs.Height, some sharedDepthProvider)
  else
    .ok (setup.Width, setup.Height, none)

/-- The depth-buffer part of `createRenderTarget` (the body of
`if (setup.HasDepth())`, lines 150 to 161 of `d3d12TextureFactory.cc`), run on
the record and world left by the color-buffer part.  Reading
`sharedDepthProvider->d3d12DepthBufferRes` through a null pointer is the
`nullDeref` fault. -/
def createDepthBuffer (formats : PixelFormats) (w : World) (tex : texture) (width height : Int)
    (sharedDepthProvider : Option texture) : Except Fault (texture × World) := do
  let setup := tex.Setup
  let (depth, w1) ←
    if setup.HasSharedDepth then
      match sharedDepthProvider with
      | none => .error Fault.nullDeref
      | some provider =>
        match provider.d3d12DepthBufferRes with
        | none => .error Fault.assertion
        | some obj => .ok (obj, { w with log := w.log ++ [Event.AddRef obj] })
    else
      AllocRenderTarget formats w width height setup.DepthFormat 1
  let tex1 := { tex with d3d12DepthBufferRes := some depth }
  let (dsv, w2) ← Allocate w1 DescType.DepthStencilView
  let tex2 := { tex1 with depthStencilView := some dsv }
  let w3 := { w2 with log := w2.log ++ [Event.CreateDepthStencilView depth dsv] }
  pure (tex2, w3)

/-- Method `d3d12TextureFactory::createRenderTarget`. -/
def createRenderTarget (formats : PixelFormats)
    (w : World) (tex : texture) : Except Fault (ResourceState × texture × World) := do
  o_assert_dbg (decide (tex.d3d12TextureRes = none))
  o_assert_dbg (decide (tex.d3d12DepthBufferRes = none))
  o_assert_dbg (!IsValid tex.renderTargetView)
  o_assert_dbg (!IsValid tex.depthStencilView)
  let setup := tex.Setup
  o_assert_dbg setup.ShouldSetupAsRenderTarget
  o_assert_dbg (decide (setup.NumMipMaps = 1))
  o_assert_dbg (decide (setup.TexType = TextureType.Texture2D))
  o_assert_dbg (formats.IsValidRenderTargetColorFormat setup.ColorFormat)
  -- get size of new render target
  let (width, height, sharedDepthProvider) ← resolveSize w setup
  o_assert_dbg (decide (width > 0) && decide (height > 0))
  -- create the color buffer and render-target-view
  let (color, w1) ← AllocRenderTarget formats w width height setup.ColorFormat 1
  let tex1 := { tex with d3d12TextureRes := some color }
  let (rtv, w2) ← Allocate w1 DescType.RenderTargetView
  let tex2 := { tex1 with renderTargetView := some rtv }
  let w3 := { w2 with log := w2.log ++ [Event.CreateRenderTargetView color rtv] }
  -- create optional depth-buffer
  if setup.HasDepth then
    let (tex3, w4) ← createDepthBuffer formats w3 tex2 width height sharedDepthProvider
    pure (ResourceState.Valid, tex3, w4)
  else
    pure (ResourceState.Valid, tex2, w3)

/-- Method `d3d12TextureFactory::SetupResource(texture&)`.  Returns the status
code with the record and the world as the call leaves them. -/
def SetupResource (formats : PixelFormats)
    (f : d3d12TextureFactory) (w : World) (tex : texture) :
    Except Fault (ResourceState × texture × World) := do
  o_assert_dbg f.isValid
  o_assert_dbg (!tex.Setup.ShouldSetupFromPixelData)
  o_assert_dbg (!tex.Setup.ShouldSetupFromFile)
  if tex.Setup.ShouldSetupAsRenderTarget then
    createRenderTarget formats w tex
  else
    pure (ResourceState.InvalidState, tex, w)

/-- The `ReleaseDeferred` calls a destroy of `tex` at frame `frameIndex` is to
issue (this list is the statement side of the `DestroyResource` theorems, not
part of the code): one for the color buffer, the depth buffer, the
render-target-view and the depth-stencil-view, in that order, each only if the
field is set. -/
def releaseEvents (frameIndex : Nat) (tex : texture) : List Event :=
  (tex.d3d12TextureRes.map (Event.resReleaseDeferred frameIndex)).toList ++
  (tex.d3d12DepthBufferRes.map (Event.resReleaseDeferred frameIndex)).toList ++
  (tex.renderTargetView.map (Event.descReleaseDeferred frameIndex)).toList ++
  (tex.depthStencilView.map (Event.descReleaseDeferred frameIndex)).toList

/-- Method `d3d12TextureFactory::DestroyResource`. -/
def DestroyResource (f : d3d12TextureFactory) (w : World) (tex : texture) :
    Except Fault (texture × World) := do
  o_assert_dbg f.isValid
  let frameIndex := w.frameIndex
  let w0 := { w with log := w.log ++ [Event.invalidateTextureState] }
  let w1 := match tex.d3d12TextureRes with
    | some obj => resReleaseDeferred w0 frameIndex obj
    | none => w0
  let w2 := match tex.d3d12DepthBufferRes with
    | some obj => resReleaseDeferred w1 frameIndex obj
    | none => w1
  let w3 := match tex.renderTargetView with
    | some h => descReleaseDeferred w2 frameIndex h
    | none => w2
  let w4 := match tex.depthStencilView with
    | some h => descReleaseDeferred w3 frameIndex h
    | none => w3
  pure (tex.Clear, w4)

/-! ## glShader -/

/-- A C++ `int` result: the two's-complement value of a mathematical integer. -/
def wrapInt32 (x : Int) : Int := (x + 2 ^ 31) % 2 ^ 32 - 2 ^ 31

/-- Function `glShader::uniformBlockArrayIndex`; `MaxUBsPerStage`
(`GfxConfig::MaxNumUniformBlocksPerStage`) is a parameter. -/
def uniformBlockArrayIndex (MaxUBsPerStage : Int) (bindStage bindSlot : Int) : Int :=
  wrapInt32 (bindSlot + wrapInt32 (bindStage * MaxUBsPerStage))

/-- Function `glShader::samplerArrayIndex`; `MaxTexturesPerBlock`
(`GfxConfig::MaxNumTextureBlockLayoutComponents`) is a parameter. -/
def samplerArrayIndex (MaxTexturesPerBlock : Int) (bindStage bindSlot : Int) : Int :=
  wrapInt32 (bindSlot + wrapInt32 (bindStage * MaxTexturesPerBlock))

/-! ## Sequences of factory calls on the records of the pool -/

/-- One factory call on the record in slot `i` of the texture pool. -/
inductive Call where
  | SetupResource (i : Nat)
  | DestroyResource (i : Nat)
  deriving DecidableEq, Repr

/-- Run one call: the factory works on the record in slot `i` by reference,
so the record the call leaves is stored back in its slot.  A slot index with
no record behind it is a null reference. -/
def applyCall (formats : PixelFormats)
    (f : d3d12TextureFactory) (w : World) : Call → Except Fault World
  | Call.SetupResource i =>
    match w.pool[i]? with
    | none => .error Fault.nullDeref
    | some tex =>
      match SetupResource formats f w tex with
      | .error e => .error e
      | .ok (_, tex1, w1) => .ok { w1 with pool := w1.pool.set i tex1 }
  | Call.DestroyResource i =>
    match w.pool[i]? with
    | none => .error Fault.nullDeref
    | some tex =>
      match DestroyResource f w tex with
      | .error e => .error e
      | .ok (tex1, w1) => .ok { w1 with pool := w1.pool.set i tex1 }

/-- Run a sequence of calls, stopping at the first fatal one. -/
def runCalls (formats : PixelFormats)
    (f : d3d12TextureFactory) : List Call → World → Except Fault World
  | [], w => .ok w
  | c :: cs, w =>
    match applyCall formats f w c with
    | .error e => .error e
    | .ok w1 => runCalls formats f cs w1

/-- What one issued call does to the reference count of object `o`:
`+1` for the `AllocRenderTarget` that created it, `+1` for an `AddRef` on it,
`-1` for a `ReleaseDeferred` of it. -/
def Event.refDelta (o : Nat) : Event → Int
  | Event.AllocRenderTarget obj _ _ _ _ => if obj = o then 1 else 0
  | Event.AddRef obj => if obj = o then 1 else 0
  | Event.resReleaseDeferred _ obj => if obj = o then -1 else 0
  | _ => 0

/-- The reference count of object `o` after the calls in `log`. -/
def refCount (log : List Event) (o : Nat) : Int := (log.map (Event.refDelta o)).sum

/-- Number of records whose depth-buffer field refers to object `o`. -/
def depthUsers (pool : List texture) (o : Nat) : Nat :=
  pool.countP (fun t => decide (t.d3d12DepthBufferRes = some o))

/-- Number of records whose color-buffer field refers to object `o`. -/
def colorUsers (pool : List texture) (o : Nat) : Nat :=
  pool.countP (fun t => decide (t.d3d12TextureRes = some o))

/-- The state before any call: nothing issued, every record all-unset. -/
def World.initial (w : World) : Prop := w.log = [] ∧ ∀ t ∈ w.pool, t.isUnset

/-- One when the pointer refers to object `o`, else zero. -/
def refersTo (ptr : Option Nat) (o : Nat) : Nat := if ptr = some o then 1 else 0

/-- The invariant of the reference-count argument: every object a record
refers to has been created; the reference count of every object is the number
of record fields (depth or color) referring to it; no object is a depth
buffer and a color buffer at once. -/
def World.Inv (w : World) : Prop :=
  (∀ t ∈ w.pool, ∀ o,
    t.d3d12TextureRes = some o ∨ t.d3d12DepthBufferRes = some o → o < w.nextObj) ∧
  (∀ o, refCount w.log o = (depthUsers w.pool o : Int) + (colorUsers w.pool o : Int)) ∧
  (∀ o, 0 < depthUsers w.pool o → colorUsers w.pool o = 0)

/-- What one returning call does, in terms the invariant needs: `tex` is the
record before the call, `tex1` and `w1` the record and world after it. -/
def CallEffect (w : World) (tex tex1 : texture) (w1 : World) : Prop :=
  w1.pool = w.pool ∧ w.nextObj ≤ w1.nextObj ∧
  (∀ o, refCount w1.log o + (refersTo tex.d3d12TextureRes o : Int) +
      (refersTo tex.d3d12DepthBufferRes o : Int) =
    refCount w.log o + (refersTo tex1.d3d12TextureRes o : Int) +
      (refersTo tex1.d3d12DepthBufferRes o : Int)) ∧
  (∀ o, tex1.d3d12TextureRes = some o →
    tex.d3d12TextureRes = some o ∨ (w.nextObj ≤ o ∧ o < w1.nextObj)) ∧
  (∀ o, tex1.d3d12DepthBufferRes = some o →
    tex.d3d12DepthBufferRes = some o ∨ (∃ p ∈ w.pool, p.d3d12DepthBufferRes = some o) ∨
      (w.nextObj ≤ o ∧ o < w1.nextObj)) ∧
  (∀ o, tex1.d3d12TextureRes = some o → tex1.d3d12DepthBufferRes = some o →
    tex.d3d12TextureRes = some o ∧ tex.d3d12DepthBufferRes = some o)

/-- The `AllocRenderTarget` calls in a log, in the order issued, each with the
width, height and format it was given. -/
def allocRequests : List Event → List (Int × Int × PixelFormat)
  | [] => []
  | Event.AllocRenderTarget _ width height fmt _ :: es => (width, height, fmt) :: allocRequests es
  | _ :: es => allocRequests es

/-! ## Sample data -/

/-- A render-target setup of absolute size 64 by 64 with a private depth
buffer (color format code 1, depth format code 2). -/
def sampleSetup : TextureSetup :=
  { mode := SetupMode.renderTarget
    relSize := false
    hasDepth := true
    hasSharedDepth := false
    NumMipMaps := 1
    TexType := TextureType.Texture2D
    ColorFormat := 1
    DepthFormat := 2
    Width := 64
    Height := 64
    RelWidth := Float32.finite 0 0
    RelHeight := Float32.finite 0 0
    DepthRenderTarget := 0 }

/-- A newly constructed record carrying `setup`: nothing set, attributes zero. -/
def freshTexture (setup : TextureSetup) : texture :=
  { Setup := setup
    textureAttrs := ⟨0, 0⟩
    d3d12TextureRes := none
    d3d12DepthBufferRes := none
    renderTargetView := none
    depthStencilView := none }

/-- Pixel-format tables: code 1 is the one valid render-target color format,
and the backend supports codes 1 and 2. -/
def sampleFormats : PixelFormats :=
  { IsValidRenderTargetColorFormat := fun c => c == 1
    backendSupports := fun c => c == 1 || c == 2 }

/-- A world at frame 7 with an 800 by 600 framebuffer, four free slots in each
descriptor region, the given pool and nothing issued yet. -/
def sampleWorld (pool : List texture) : World :=
  { frameIndex := 7
    FramebufferWidth := 800
    FramebufferHeight := 600
    nextObj := 0
    freeRTV := [0, 1, 2, 3]
    freeDSV := [0, 1, 2, 3]
    pool := pool
    log := [] }

/-- A record with all four fields set: color object 10, depth object 11,
render-target-view slot 0, depth-stencil-view slot 1. -/
def liveTexture : texture :=
  { Setup := sampleSetup
    textureAttrs := ⟨0, 0⟩
    d3d12TextureRes := some 10
    d3d12DepthBufferRes := some 11
    renderTargetView := some ⟨DescType.RenderTargetView, 0⟩
    depthStencilView := some ⟨DescType.DepthStencilView, 1⟩ }

/-- A render target without depth buffer as a successful setup outside this
factory would leave it: attributes 64 by 64, color object 0,
render-target-view slot 0, no depth buffer. -/
def colorOnlyTexture : texture :=
  { Setup := { sampleSetup with hasDepth := false }
    textureAttrs := ⟨64, 64⟩
    d3d12TextureRes := some 0
    d3d12DepthBufferRes := none
    renderTargetView := some ⟨DescType.RenderTargetView, 0⟩
    depthStencilView := none }

/-- A render-target setup whose depth buffer is shared from the record in
pool slot 0, with the size inherited from that record. -/
def sharedSetup : TextureSetup :=
  { sampleSetup with hasSharedDepth := true, Width := 0, Height := 0, DepthRenderTarget := 0 }

/-- The world of `colorOnlyTexture`: one object and one render-target-view slot
in use. -/
def colorOnlyWorld : World :=
  { sampleWorld [colorOnlyTexture] with nextObj := 1, freeRTV := [1, 2, 3] }

/-- A provider record with a depth buffer and attributes 64 by 64: color
object 10, depth object 11, view slots 0 and 1. -/
def providerTexture : texture :=
  { liveTexture with textureAttrs := ⟨64, 64⟩ }

/-- The world of `providerTexture`: twelve objects created, view slots 0 and 1
of the two regions in use. -/
def providerWorld : World :=
  { sampleWorld [providerTexture] with nextObj := 12, freeRTV := [1, 2, 3], freeDSV := [0, 2, 3] }

/-- A render-target setup sized as the whole display framebuffer whose depth
buffer is shared from the record in pool slot 0. -/
def relSharedSetup : TextureSetup :=
  { sharedSetup with
    relSize := true
    RelWidth := Float32.finite 1 0
    RelHeight := Float32.finite 1 0 }

/-- An all-unset record carrying `setup` whose attributes block reads 64 by
64. -/
def sizedTexture (setup : TextureSetup) : texture :=
  { freshTexture setup with textureAttrs := ⟨64, 64⟩ }

/-- Two all-unset records: slot 0 asks for a private depth buffer, slot 1 for
the depth buffer of slot 0. -/
def sharingWorld : World :=
  sampleWorld [sizedTexture sampleSetup, freshTexture sharedSetup]

/-- The world a returning run of `cs` from `w` ends in (`w` itself when the run
is fatal). -/
def worldAfter (cs : List Call) (w : World) : World :=
  match runCalls sampleFormats ⟨true⟩ cs w with
  | .ok w1 => w1
  | .error _ => w

/-- The binary32 number `0.5`. -/
def oneHalf : Float32 := Float32.finite 1 (-1)

/-- The binary32 number `0.8333333f`, that is `13981013 / 2^24`: the float
next below `5/6`. -/
def fiveSixthsBelow : Float32 := Float32.finite 13981013 (-24)

/-- A relative-sized render-target setup with a private depth buffer and the
same fraction `rel` for width and height. -/
def relSetup (rel : Float32) : TextureSetup :=
  { sampleSetup with relSize := true, Width := 0, Height := 0, RelWidth := rel, RelHeight := rel }

/-- The sample world with a display framebuffer of 6 by 6. -/
def tinyWorld : World :=
  { sampleWorld [] with FramebufferWidth := 6, FramebufferHeight := 6 }

/-! ## Slot indexing of `glShader` -/

theorem wrapInt32_of_range (x : Int) (h0 : 0 ≤ x) (h1 : x < 2 ^ 31) : wrapInt32 x = x := by
  unfold wrapInt32
  rw [Int.emod_eq_of_lt (by omega) (by omega)]
  omega

/-- The flattened index `slot + stage * perStage` of an in-range pair, computed
in C++ `int` arithmetic, when the array size `stages * perStage` is an `int`. -/
theorem flatIndex_eq (stages perStage s b : Int) (hsize : stages * perStage < 2 ^ 31)
    (hs0 : 0 ≤ s) (hs1 : s < stages) (hb0 : 0 ≤ b) (hb1 : b < perStage) :
    wrapInt32 (b + wrapInt32 (s * perStage)) = b + s * perStage ∧
    0 ≤ b + s * perStage ∧ b + s * perStage < stages * perStage := by
  have hM : 0 < perStage := by omega
  have h1 : 0 ≤ s * perStage := mul_nonneg hs0 (by omega)
  have h2 : (s + 1) * perStage ≤ stages * perStage :=
    mul_le_mul_of_nonneg_right (by omega) (by omega)
  have h3 : b + s * perStage < stages * perStage := by nlinarith
  rw [wrapInt32_of_range (s * perStage) h1 (by omega),
    wrapInt32_of_range (b + s * perStage) (by omega) (by omega)]
  exact ⟨rfl, by omega, h3⟩

theorem flatIndex_inj (perStage s b s' b' : Int)
    (hb0 : 0 ≤ b) (hb1 : b < perStage) (hb0' : 0 ≤ b') (hb1' : b' < perStage)
    (h : b + s * perStage = b' + s' * perStage) : s = s' ∧ b = b' := by
  have hs : s = s' := by
    rcases lt_trichotomy s s' with hlt | heq | hgt
    · have : (s + 1) * perStage ≤ s' * perStage :=
        mul_le_mul_of_nonneg_right (by omega) (by omega)
      nlinarith
    · exact heq
    · have : (s' + 1) * perStage ≤ s * perStage :=
        mul_le_mul_of_nonneg_right (by omega) (by omega)
      nlinarith
  subst hs
  exact ⟨rfl, by omega⟩

/-- C10: for stages `0 ≤ s < MaxStages` and slots `0 ≤ b < MaxUBsPerStage`,
`uniformBlockArrayIndex s b` equals `b + s*MaxUBsPerStage`, lies in
`[0, MaxStages*MaxUBsPerStage)` (the size of `uniformBlockMappings`), and two
distinct in-range pairs never get the same index; the same holds for
`samplerArrayIndex` with `MaxTexturesPerBlock` (the size of `samplerMappings`
being `MaxStages*MaxTexturesPerBlock`).  The two array sizes are C++ `int`
constants. -/
theorem glShader_arrayIndex_in_range_and_injective
    (MaxStages MaxUBsPerStage MaxTexturesPerBlock : Int)
    (hUB : MaxStages * MaxUBsPerStage < 2 ^ 31)
    (hTex : MaxStages * MaxTexturesPerBlock < 2 ^ 31) :
    (∀ s b : Int, 0 ≤ s → s < MaxStages → 0 ≤ b → b < MaxUBsPerStage →
      uniformBlockArrayIndex MaxUBsPerStage s b = b + s * MaxUBsPerStage ∧
      0 ≤ uniformBlockArrayIndex MaxUBsPerStage s b ∧
      uniformBlockArrayIndex MaxUBsPerStage s b < MaxStages * MaxUBsPerStage) ∧
    (∀ s b s' b' : Int, 0 ≤ s → s < MaxStages → 0 ≤ b → b < MaxUBsPerStage →
      0 ≤ s' → s' < MaxStages → 0 ≤ b' → b' < MaxUBsPerStage →
      uniformBlockArrayIndex MaxUBsPerStage s b = uniformBlockArrayIndex MaxUBsPerStage s' b' →
      s = s' ∧ b = b') ∧
    (∀ s b : Int, 0 ≤ s → s < MaxStages → 0 ≤ b → b < MaxTexturesPerBlock →
      samplerArrayIndex MaxTexturesPerBlock s b = b + s * MaxTexturesPerBlock ∧
      0 ≤ samplerArrayIndex MaxTexturesPerBlock s b ∧
      samplerArrayIndex MaxTexturesPerBlock s b < MaxStages * MaxTexturesPerBlock) ∧
    (∀ s b s' b' : Int, 0 ≤ s → s < MaxStages → 0 ≤ b → b < MaxTexturesPerBlock →
      0 ≤ s' → s' < MaxStages → 0 ≤ b' → b' < MaxTexturesPerBlock →
      samplerArrayIndex MaxTexturesPerBlock s b = samplerArrayIndex MaxTexturesPerBlock s' b' →
      s = s' ∧ b = b') := by
  refine ⟨?_, ?_, ?_, ?_⟩
  · intro s b hs0 hs1 hb0 hb1
    have h := flatIndex_eq MaxStages MaxUBsPerStage s b hUB hs0 hs1 hb0 hb1
    unfold uniformBlockArrayIndex
    rw [h.1]
    exact ⟨rfl, h.2.1, h.2.2⟩
  · intro s b s' b' hs0 hs1 hb0 hb1 hs0' hs1' hb0' hb1' h
    unfold uniformBlockArrayIndex at h
    rw [(flatIndex_eq MaxStages MaxUBsPerStage s b hUB hs0 hs1 hb0 hb1).1,
      (flatIndex_eq MaxStages MaxUBsPerStage s' b' hUB hs0' hs1' hb0' hb1').1] at h
    exact flatIndex_inj MaxUBsPerStage s b s' b' hb0 hb1 hb0' hb1' h
  · intro s b hs0 hs1 hb0 hb1
    have h := flatIndex_eq MaxStages MaxTexturesPerBlock s b hTex hs0 hs1 hb0 hb1
    unfold samplerArrayIndex
    rw [h.1]
    exact ⟨rfl, h.2.1, h.2.2⟩
  · intro s b s' b' hs0 hs1 hb0 hb1 hs0' hs1' hb0' hb1' h
    unfold samplerArrayIndex at h
    rw [(flatIndex_eq MaxStages MaxTexturesPerBlock s b hTex hs0 hs1 hb0 hb1).1,
      (flatIndex_eq MaxStages MaxTexturesPerBlock s' b' hTex hs0' hs1' hb0' hb1').1] at h
    exact flatIndex_inj MaxTexturesPerBlock s b s' b' hb0 hb1 hb0' hb1' h

/-- Witness for C10 with two shader stages, four uniform blocks per stage and
sixteen textures per block; the last vertex-stage slot and the first
fragment-stage slot are neighbours in the array. -/
theorem glShader_arrayIndex_in_range_and_injective_witness :
    ((2 : Int) * 4 < 2 ^ 31 ∧ (2 : Int) * 16 < 2 ^ 31) ∧
    uniformBlockArrayIndex 4 1 3 = 7 ∧ samplerArrayIndex 16 1 15 = 31 ∧
    uniformBlockArrayIndex 4 0 3 = 3 ∧ uniformBlockArrayIndex 4 1 0 = 4 := by
  have h := glShader_arrayIndex_in_range_and_injective 2 4 16 (by norm_num) (by norm_num)
  refine ⟨⟨by norm_num, by norm_num⟩, ?_, ?_, ?_, ?_⟩
  · exact (h.1 1 3 (by norm_num) (by norm_num) (by norm_num) (by norm_num)).1
  · exact (h.2.2.1 1 15 (by norm_num) (by norm_num) (by norm_num) (by norm_num)).1
  · exact (h.1 0 3 (by norm_num) (by norm_num) (by norm_num) (by norm_num)).1
  · exact (h.1 1 0 (by norm_num) (by norm_num) (by norm_num) (by norm_num)).1

/-! ## The pixel-data overload -/

/-- C9: on an initialised factory, for a record whose setup is neither a
render target nor file-based, the pixel-data overload of `SetupResource`
returns `InvalidState` (no assertion, never `Valid`) whatever the data and
size, whether or not the setup asks for pixel-data population, and leaves the
record (and the world) as they were. -/
theorem SetupResourceData_returns_InvalidState (f : d3d12TextureFactory) (w : World)
    (tex : texture) (data : List Nat) (size : Int)
    (hf : f.isValid = true)
    (hRT : tex.Setup.ShouldSetupAsRenderTarget = false)
    (hFile : tex.Setup.ShouldSetupFromFile = false) :
    SetupResourceData f w tex data size = Except.ok (ResourceState.InvalidState, tex, w) := by
  unfold SetupResourceData
  simp only [hf, hRT, hFile, o_assert_dbg, createFromPixelData]
  cases tex.Setup.ShouldSetupFromPixelData <;> rfl

/-- Witness for C9: a setup that asks for pixel-data population, on a record
with all fields set, with three bytes of data. -/
theorem SetupResourceData_returns_InvalidState_witness :
    SetupResourceData ⟨true⟩ (sampleWorld [])
        { liveTexture with Setup := { sampleSetup with mode := SetupMode.fromPixelData } }
        [1, 2, 3] 3 =
      Except.ok (ResourceState.InvalidState,
        { liveTexture with Setup := { sampleSetup with mode := SetupMode.fromPixelData } },
        sampleWorld []) :=
  SetupResourceData_returns_InvalidState ⟨true⟩ (sampleWorld []) _ [1, 2, 3] 3 rfl rfl rfl

/-! ## DestroyResource -/

/-- On an initialised factory `DestroyResource` always returns; the record is
cleared and the world gains the issued calls only. -/
theorem DestroyResource_eq (f : d3d12TextureFactory) (w : World) (tex : texture)
    (hf : f.isValid = true) :
    DestroyResource f w tex =
      Except.ok (tex.Clear,
        { w with log := w.log ++ Event.invalidateTextureState :: releaseEvents w.frameIndex tex }) := by
  unfold DestroyResource
  simp only [hf, o_assert_dbg, releaseEvents, resReleaseDeferred, descReleaseDeferred]
  cases tex.d3d12TextureRes <;> cases tex.d3d12DepthBufferRes <;>
    cases tex.renderTargetView <;> cases tex.depthStencilView <;>
    simp [Bind.bind, Except.bind, Pure.pure, Except.pure]

/-- C4: on an initialised factory `DestroyResource` returns (no assertion), the
world changes only by the calls issued: `invalidateTextureState`, then exactly
one `ReleaseDeferred` at the renderer's current frame index for each of color
buffer, depth buffer (resource allocator), render-target-view,
depth-stencil-view (descriptor allocator) that is set on the record and none
for a field that is unset; the free lists and the object counter are
untouched (nothing is freed at the call); the record ends all-unset. -/
theorem DestroyResource_releases_deferred (f : d3d12TextureFactory) (w : World) (tex : texture)
    (hf : f.isValid = true) :
    DestroyResource f w tex =
      Except.ok (tex.Clear,
        { w with
          log := w.log ++ [Event.invalidateTextureState] ++
            (tex.d3d12TextureRes.map (Event.resReleaseDeferred w.frameIndex)).toList ++
            (tex.d3d12DepthBufferRes.map (Event.resReleaseDeferred w.frameIndex)).toList ++
            (tex.renderTargetView.map (Event.descReleaseDeferred w.frameIndex)).toList ++
            (tex.depthStencilView.map (Event.descReleaseDeferred w.frameIndex)).toList }) ∧
    (tex.Clear).isUnset := by
  refine ⟨?_, rfl, rfl, rfl, rfl⟩
  rw [DestroyResource_eq f w tex hf]
  simp [releaseEvents]

/-- Witness for C4: a record with all four fields set, destroyed at frame 7. -/
theorem DestroyResource_releases_deferred_witness :
    DestroyResource ⟨true⟩ (sampleWorld []) liveTexture =
      Except.ok (freshTexture sampleSetup,
        { sampleWorld [] with
          log := [Event.invalidateTextureState,
                  Event.resReleaseDeferred 7 10,
                  Event.resReleaseDeferred 7 11,
                  Event.descReleaseDeferred 7 ⟨DescType.RenderTargetView, 0⟩,
                  Event.descReleaseDeferred 7 ⟨DescType.DepthStencilView, 1⟩] }) :=
  (DestroyResource_releases_deferred ⟨true⟩ (sampleWorld []) liveTexture rfl).1

/-- Counterexample to C5: destroying the record a second time, directly after
the first `DestroyResource`, returns normally; the second call issues nothing
but `invalidateTextureState`. -/
theorem DestroyResource_twice_returns :
    (DestroyResource ⟨true⟩ (sampleWorld []) liveTexture).bind
        (fun r => DestroyResource ⟨true⟩ r.2 r.1) =
      Except.ok (freshTexture sampleSetup,
        { sampleWorld [] with
          log := [Event.invalidateTextureState,
                  Event.resReleaseDeferred 7 10,
                  Event.resReleaseDeferred 7 11,
                  Event.descReleaseDeferred 7 ⟨DescType.RenderTargetView, 0⟩,
                  Event.descReleaseDeferred 7 ⟨DescType.DepthStencilView, 1⟩,
                  Event.invalidateTextureState] }) ∧
    (liveTexture.Clear).isUnset := by
  exact ⟨rfl, rfl, rfl, rfl, rfl⟩

/-- C5 as amended: on an initialised factory, `DestroyResource` on a record
that is already all-unset does not assert; it returns, issues no
`ReleaseDeferred` (only `invalidateTextureState`), and leaves the record
all-unset. -/
theorem DestroyResource_unset_is_noop (f : d3d12TextureFactory) (w : World) (tex : texture)
    (hf : f.isValid = true) (hunset : tex.isUnset) :
    DestroyResource f w tex =
      Except.ok (tex, { w with log := w.log ++ [Event.invalidateTextureState] }) := by
  obtain ⟨h1, h2, h3, h4⟩ := hunset
  have hclear : tex.Clear = tex := by
    cases tex
    simp only [texture.Clear] at *
    subst h1 h2 h3 h4
    rfl
  unfold DestroyResource
  simp [hf, o_assert_dbg, h1, h2, h3, h4, hclear, Bind.bind, Except.bind, Pure.pure, Except.pure]

/-- Witness for the amended C5: a newly constructed record. -/
theorem DestroyResource_unset_is_noop_witness :
    DestroyResource ⟨true⟩ (sampleWorld []) (freshTexture sampleSetup) =
      Except.ok (freshTexture sampleSetup,
        { sampleWorld [] with log := [Event.invalidateTextureState] }) :=
  DestroyResource_unset_is_noop ⟨true⟩ (sampleWorld []) (freshTexture sampleSetup) rfl
    ⟨rfl, rfl, rfl, rfl⟩

/-! ## SetupResource on a render target -/

theorem modes_of_renderTarget (s : TextureSetup) (h : s.ShouldSetupAsRenderTarget = true) :
    s.ShouldSetupFromPixelData = false ∧ s.ShouldSetupFromFile = false := by
  unfold TextureSetup.ShouldSetupAsRenderTarget at h
  unfold TextureSetup.ShouldSetupFromPixelData TextureSetup.ShouldSetupFromFile
  have hm : s.mode = SetupMode.renderTarget := of_decide_eq_true h
  simp [hm]

/-- Counterexample to C1: three inputs that meet every hypothesis of the claim
(initialised factory, fresh record, render-target setup with one mip level, 2D
type, a valid color format and a positive resolved size of 64 by 64), on none
of which `SetupResource` returns `Valid`.  First: the render-target-view
region has no free slot, and the descriptor allocation is fatal.  Second: the
setup requests a private depth buffer in a format (code 3) the backend does
not support, and the depth allocation is fatal.  Third: the setup requests a
depth buffer shared from a provider that has none, and the assertion on the
provider's depth buffer fails. -/
theorem SetupResource_fresh_not_Valid :
    ((freshTexture sampleSetup).isUnset ∧
      sampleSetup.ShouldSetupAsRenderTarget = true ∧
      sampleSetup.NumMipMaps = 1 ∧
      sampleSetup.TexType = TextureType.Texture2D ∧
      sampleFormats.IsValidRenderTargetColorFormat sampleSetup.ColorFormat = true ∧
      resolveSize { sampleWorld [] with freeRTV := [] } sampleSetup = Except.ok (64, 64, none) ∧
      SetupResource sampleFormats ⟨true⟩ { sampleWorld [] with freeRTV := [] }
          (freshTexture sampleSetup) =
        Except.error Fault.assertion) ∧
    ((freshTexture { sampleSetup with DepthFormat := 3 }).isUnset ∧
      sampleFormats.IsValidRenderTargetColorFormat sampleSetup.ColorFormat = true ∧
      sampleFormats.backendSupports 3 = false ∧
      resolveSize (sampleWorld []) { sampleSetup with DepthFormat := 3 } =
        Except.ok (64, 64, none) ∧
      SetupResource sampleFormats ⟨true⟩ (sampleWorld [])
          (freshTexture { sampleSetup with DepthFormat := 3 }) =
        Except.error Fault.assertion) ∧
    ((freshTexture sharedSetup).isUnset ∧
      sharedSetup.ShouldSetupAsRenderTarget = true ∧
      sharedSetup.NumMipMaps = 1 ∧
      sharedSetup.TexType = TextureType.Texture2D ∧
      sampleFormats.IsValidRenderTargetColorFormat sharedSetup.ColorFormat = true ∧
      resolveSize colorOnlyWorld sharedSetup = Except.ok (64, 64, some colorOnlyTexture) ∧
      sharedSetup.HasDepth = true ∧
      colorOnlyTexture.d3d12DepthBufferRes = none ∧
      SetupResource sampleFormats ⟨true⟩ colorOnlyWorld (freshTexture sharedSetup) =
        Except.error Fault.assertion) := by
  refine ⟨⟨⟨rfl, rfl, rfl, rfl⟩, rfl, rfl, rfl, rfl, rfl, rfl⟩,
    ⟨⟨rfl, rfl, rfl, rfl⟩, rfl, rfl, rfl, rfl⟩,
    ⟨⟨rfl, rfl, rfl, rfl⟩, rfl, rfl, rfl, rfl, rfl, rfl, rfl, rfl⟩⟩

/-- C1 as amended: on an initialised factory, for a fresh record whose setup is
a render target with one mip level, 2D type, a valid render-target color
format and a positive resolved width and height, when the allocations can be
served (the backend supports the color format, the render-target-view region
has a free slot and, if a depth buffer is requested, the depth-stencil-view
region has a free slot and the backend supports the depth format of a private
depth buffer), and a shared depth buffer comes from a looked-up provider that
has a depth buffer: `SetupResource` returns `Valid` and leaves the record with
a set color buffer and a valid render-target-view; the depth buffer is set,
and the depth-stencil-view valid, exactly when the setup requests a depth
buffer. -/
theorem SetupResource_fresh_renderTarget_Valid
    (formats : PixelFormats)
    (f : d3d12TextureFactory) (w : World) (tex : texture)
    (width height : Int) (provider : Option texture)
    (hf : f.isValid = true)
    (hunset : tex.isUnset)
    (hmode : tex.Setup.ShouldSetupAsRenderTarget = true)
    (hmips : tex.Setup.NumMipMaps = 1)
    (htype : tex.Setup.TexType = TextureType.Texture2D)
    (hfmt : formats.IsValidRenderTargetColorFormat tex.Setup.ColorFormat = true)
    (hsize : resolveSize w tex.Setup = Except.ok (width, height, provider))
    (hwidth : 0 < width) (hheight : 0 < height)
    (hcolor : formats.backendSupports tex.Setup.ColorFormat = true)
    (hrtv : w.freeRTV ≠ [])
    (hdsv : tex.Setup.HasDepth = true → w.freeDSV ≠ [])
    (hprivate : tex.Setup.HasDepth = true → tex.Setup.HasSharedDepth = false →
      formats.backendSupports tex.Setup.DepthFormat = true)
    (hshared : tex.Setup.HasDepth = true → tex.Setup.HasSharedDepth = true →
      ∃ p obj, provider = some p ∧ p.d3d12DepthBufferRes = some obj) :
    ∃ tex1 w1,
      SetupResource formats f w tex =
        Except.ok (ResourceState.Valid, tex1, w1) ∧
      tex1.d3d12TextureRes.isSome = true ∧
      IsValid tex1.renderTargetView = true ∧
      tex1.d3d12DepthBufferRes.isSome = tex.Setup.HasDepth ∧
      IsValid tex1.depthStencilView = tex.Setup.HasDepth := by
  obtain ⟨h1, h2, h3, h4⟩ := hunset
  obtain ⟨hpix, hfile⟩ := modes_of_renderTarget tex.Setup hmode
  obtain ⟨slot, rest, hfree⟩ : ∃ slot rest, w.freeRTV = slot :: rest := by
    cases hw : w.freeRTV with
    | nil => exact absurd hw hrtv
    | cons a l => exact ⟨a, l, rfl⟩
  cases hd : tex.Setup.HasDepth with
  | false =>
    simp [SetupResource, createRenderTarget, o_assert_dbg, hf, hpix, hfile, hmode, h1, h2, h3, h4,
      hmips, htype, hfmt, hsize, hwidth, hheight, hcolor, AllocRenderTarget, Allocate, hfree, hd,
      IsValid, Bind.bind, Except.bind, Pure.pure, Except.pure]
  | true =>
    obtain ⟨dslot, drest, hdfree⟩ : ∃ slot rest, w.freeDSV = slot :: rest := by
      cases hw : w.freeDSV with
      | nil => exact absurd hw (hdsv hd)
      | cons a l => exact ⟨a, l, rfl⟩
    cases hs : tex.Setup.HasSharedDepth with
    | false =>
      have hdf := hprivate hd hs
      simp [SetupResource, createRenderTarget, createDepthBuffer, o_assert_dbg, hf, hpix, hfile,
        hmode, h1, h2, h3, h4, hmips, htype, hfmt, hsize, hwidth, hheight, hcolor, hdf,
        AllocRenderTarget, Allocate, hfree, hdfree, hd, hs, IsValid, Bind.bind, Except.bind,
        Pure.pure, Except.pure]
    | true =>
      obtain ⟨p, obj, hp, hobj⟩ := hshared hd hs
      simp [SetupResource, createRenderTarget, createDepthBuffer, o_assert_dbg, hf, hpix, hfile,
        hmode, h1, h2, h3, h4, hmips, htype, hfmt, hsize, hwidth, hheight, hcolor,
        AllocRenderTarget, Allocate, hfree, hdfree, hd, hs, hp, hobj, IsValid, Bind.bind,
        Except.bind, Pure.pure, Except.pure]

/-- Witness for the amended C1: a newly constructed record with an absolute 64
by 64 render-target setup and a private depth buffer, in a world where nothing
has been allocated yet. -/
theorem SetupResource_fresh_renderTarget_Valid_witness :
    ∃ tex1 w1,
      SetupResource sampleFormats ⟨true⟩ (sampleWorld []) (freshTexture sampleSetup) =
        Except.ok (ResourceState.Valid, tex1, w1) ∧
      tex1.d3d12TextureRes.isSome = true ∧
      IsValid tex1.renderTargetView = true ∧
      tex1.d3d12DepthBufferRes.isSome = true ∧
      IsValid tex1.depthStencilView = true :=
  SetupResource_fresh_renderTarget_Valid sampleFormats ⟨true⟩ (sampleWorld [])
    (freshTexture sampleSetup) 64 64 none
    rfl ⟨rfl, rfl, rfl, rfl⟩ rfl rfl rfl rfl rfl (by decide) (by decide) rfl
    (by simp [sampleWorld]) (fun _ => by simp [sampleWorld]) (fun _ _ => rfl)
    (fun _ h => absurd h (by decide))

/-! ## Shared depth buffers -/

/-- C2, failing input: record B is fresh, its setup is sized relative to the
display framebuffer and requests a depth buffer shared from the record in pool
slot 0, which has depth object 11.  `SetupResource(B)` does not succeed: the
provider pointer is still null where it is dereferenced. -/
theorem SetupResource_relSize_shared_fails :
    Lookup providerWorld relSharedSetup.DepthRenderTarget = some providerTexture ∧
    providerTexture.d3d12DepthBufferRes = some 11 ∧
    SetupResource sampleFormats ⟨true⟩ providerWorld (freshTexture relSharedSetup) =
      Except.error Fault.nullDeref := by
  exact ⟨rfl, rfl, rfl⟩

/-- C7, failing input: record A (fresh, absolute size 64 by 64, private depth
buffer) is set up successfully; its attributes block still reads 0 by 0
afterwards.  Record B, not relative-sized and naming A as shared-depth
provider, then resolves its size to 0 by 0 and `SetupResource(B)` fails the
size assertion; no color buffer of 64 by 64 is allocated for B. -/
theorem SetupResource_shared_size_not_inherited :
    SetupResource sampleFormats ⟨true⟩
        (sampleWorld [freshTexture sampleSetup, freshTexture sharedSetup])
        (freshTexture sampleSetup) =
      Except.ok (ResourceState.Valid,
        { freshTexture sampleSetup with
          d3d12TextureRes := some 0
          d3d12DepthBufferRes := some 1
          renderTargetView := some ⟨DescType.RenderTargetView, 0⟩
          depthStencilView := some ⟨DescType.DepthStencilView, 0⟩ },
        { sampleWorld [freshTexture sampleSetup, freshTexture sharedSetup] with
          nextObj := 2
          freeRTV := [1, 2, 3]
          freeDSV := [1, 2, 3]
          log := [Event.AllocRenderTarget 0 64 64 1 1,
                  Event.Allocate ⟨DescType.RenderTargetView, 0⟩,
                  Event.CreateRenderTargetView 0 ⟨DescType.RenderTargetView, 0⟩,
                  Event.AllocRenderTarget 1 64 64 2 1,
                  Event.Allocate ⟨DescType.DepthStencilView, 0⟩,
                  Event.CreateDepthStencilView 1 ⟨DescType.DepthStencilView, 0⟩] }) ∧
    runCalls sampleFormats ⟨true⟩ [Call.SetupResource 0]
        (sampleWorld [freshTexture sampleSetup, freshTexture sharedSetup]) ≠
      Except.error Fault.assertion ∧
    runCalls sampleFormats ⟨true⟩ [Call.SetupResource 0, Call.SetupResource 1]
        (sampleWorld [freshTexture sampleSetup, freshTexture sharedSetup]) =
      Except.error Fault.assertion := by
  refine ⟨rfl, ?_, rfl⟩
  intro h
  cases h

/-- C8, failing input: record B is fresh, relative-sized, and requests a depth
buffer shared from the record in pool slot 0, which has no depth buffer.
`SetupResource(B)` does not fail with an assertion: the provider is never
looked up and the null provider pointer is dereferenced. -/
theorem SetupResource_relSize_shared_noDepth_no_assertion :
    Lookup colorOnlyWorld relSharedSetup.DepthRenderTarget = some colorOnlyTexture ∧
    colorOnlyTexture.d3d12DepthBufferRes = none ∧
    SetupResource sampleFormats ⟨true⟩ colorOnlyWorld (freshTexture relSharedSetup) =
      Except.error Fault.nullDeref ∧
    SetupResource sampleFormats ⟨true⟩ colorOnlyWorld (freshTexture relSharedSetup) ≠
      Except.error Fault.assertion := by
  refine ⟨rfl, rfl, rfl, ?_⟩
  intro h
  cases h

/-! ## What a successful call did -/

/-- A successful `createDepthBuffer` either aliased the depth object of the
looked-up provider (one `AddRef`, no allocation) or allocated a new object. -/
theorem createDepthBuffer_ok (formats : PixelFormats) (w : World) (tex : texture)
    (width height : Int)
    (provider : Option texture) (tex1 : texture) (w1 : World)
    (h : createDepthBuffer formats w tex width height provider = Except.ok (tex1, w1)) :
    ∃ slot rest, w.freeDSV = slot :: rest ∧
      ((∃ p obj, tex.Setup.HasSharedDepth = true ∧ provider = some p ∧
          p.d3d12DepthBufferRes = some obj ∧
          tex1 = { tex with d3d12DepthBufferRes := some obj
                            depthStencilView := some ⟨DescType.DepthStencilView, slot⟩ } ∧
          w1 = { w with freeDSV := rest
                        log := w.log ++
                          [Event.AddRef obj,
                           Event.Allocate ⟨DescType.DepthStencilView, slot⟩,
                           Event.CreateDepthStencilView obj ⟨DescType.DepthStencilView, slot⟩] }) ∨
       (tex.Setup.HasSharedDepth = false ∧ 0 < width ∧ 0 < height ∧
          formats.backendSupports tex.Setup.DepthFormat = true ∧
          tex1 = { tex with d3d12DepthBufferRes := some w.nextObj
                            depthStencilView := some ⟨DescType.DepthStencilView, slot⟩ } ∧
          w1 = { w with nextObj := w.nextObj + 1
                        freeDSV := rest
                        log := w.log ++
                          [Event.AllocRenderTarget w.nextObj width height tex.Setup.DepthFormat 1,
                           Event.Allocate ⟨DescType.DepthStencilView, slot⟩,
                           Event.CreateDepthStencilView w.nextObj
                             ⟨DescType.DepthStencilView, slot⟩] })) := by
  unfold createDepthBuffer at h
  cases hs : tex.Setup.HasSharedDepth with
  | true =>
    cases hp : provider with
    | none => simp [hs, hp, Bind.bind, Except.bind] at h
    | some p =>
      cases hobj : p.d3d12DepthBufferRes with
      | none => simp [hs, hp, hobj, Bind.bind, Except.bind] at h
      | some obj =>
        cases hfree : w.freeDSV with
        | nil => simp [hs, hp, hobj, Allocate, hfree, Bind.bind, Except.bind] at h
        | cons slot rest =>
          simp [hs, hp, hobj, Allocate, hfree, Bind.bind, Except.bind, Pure.pure,
            Except.pure] at h
          refine ⟨slot, rest, rfl, Or.inl ⟨p, obj, rfl, rfl, hobj, ?_, ?_⟩⟩
          · exact h.1.symm
          · rw [← h.2]
  | false =>
    by_cases hpos : 0 < width ∧ 0 < height ∧ formats.backendSupports tex.Setup.DepthFormat = true
    · cases hfree : w.freeDSV with
      | nil => simp [hs, AllocRenderTarget, hpos, Allocate, hfree, Bind.bind, Except.bind] at h
      | cons slot rest =>
        simp [hs, AllocRenderTarget, hpos, Allocate, hfree, Bind.bind, Except.bind, Pure.pure,
          Except.pure] at h
        refine ⟨slot, rest, rfl, Or.inr ⟨rfl, hpos.1, hpos.2.1, hpos.2.2, ?_, ?_⟩⟩
        · exact h.1.symm
        · rw [← h.2]
    · simp [hs, AllocRenderTarget, hpos, Bind.bind, Except.bind] at h

/-- A successful `createRenderTarget` started from an all-unset record, resolved
a positive size, created color object `w.nextObj` with a render-target-view in
the first free slot, and then either stopped (no depth requested) or ran
`createDepthBuffer`. -/
theorem createRenderTarget_ok (formats : PixelFormats)
    (w : World) (tex : texture) (c : ResourceState) (tex1 : texture) (w1 : World)
    (h : createRenderTarget formats w tex = Except.ok (c, tex1, w1)) :
    c = ResourceState.Valid ∧ tex.isUnset ∧
    ∃ width height provider slot rest,
      resolveSize w tex.Setup = Except.ok (width, height, provider) ∧
      0 < width ∧ 0 < height ∧ formats.backendSupports tex.Setup.ColorFormat = true ∧
      w.freeRTV = slot :: rest ∧
      ((tex.Setup.HasDepth = false ∧
          tex1 = { tex with d3d12TextureRes := some w.nextObj
                            renderTargetView := some ⟨DescType.RenderTargetView, slot⟩ } ∧
          w1 = { w with nextObj := w.nextObj + 1
                        freeRTV := rest
                        log := w.log ++
                          [Event.AllocRenderTarget w.nextObj width height tex.Setup.ColorFormat 1,
                           Event.Allocate ⟨DescType.RenderTargetView, slot⟩,
                           Event.CreateRenderTargetView w.nextObj
                             ⟨DescType.RenderTargetView, slot⟩] }) ∨
       (tex.Setup.HasDepth = true ∧
          createDepthBuffer formats
            { w with nextObj := w.nextObj + 1
                     freeRTV := rest
                     log := w.log ++
                       [Event.AllocRenderTarget w.nextObj width height tex.Setup.ColorFormat 1,
                        Event.Allocate ⟨DescType.RenderTargetView, slot⟩,
                        Event.CreateRenderTargetView w.nextObj
                          ⟨DescType.RenderTargetView, slot⟩] }
            { tex with d3d12TextureRes := some w.nextObj
                       renderTargetView := some ⟨DescType.RenderTargetView, slot⟩ }
            width height provider = Except.ok (tex1, w1))) := by
  unfold createRenderTarget at h
  have a1 : tex.d3d12TextureRes = none := by
    by_contra hc
    simp [o_assert_dbg, hc, Bind.bind, Except.bind] at h
  have a2 : tex.d3d12DepthBufferRes = none := by
    by_contra hc
    simp [o_assert_dbg, a1, hc, Bind.bind, Except.bind] at h
  have a3 : tex.renderTargetView = none := by
    cases hc : tex.renderTargetView with
    | none => rfl
    | some v => simp [o_assert_dbg, a1, a2, hc, IsValid, Bind.bind, Except.bind] at h
  have a4 : tex.depthStencilView = none := by
    cases hc : tex.depthStencilView with
    | none => rfl
    | some v => simp [o_assert_dbg, a1, a2, a3, hc, IsValid, Bind.bind, Except.bind] at h
  simp only [o_assert_dbg, a1, a2, a3, a4, IsValid, Option.isSome, decide_True, Bool.not_false,
    if_true, Bind.bind, Except.bind] at h
  cases a5 : tex.Setup.ShouldSetupAsRenderTarget with
  | false => simp [a5] at h
  | true =>
  by_cases a6 : tex.Setup.NumMipMaps = 1
  swap
  · simp [a5, a6] at h
  by_cases a7 : tex.Setup.TexType = TextureType.Texture2D
  swap
  · simp [a5, a6, a7] at h
  cases a8 : formats.IsValidRenderTargetColorFormat tex.Setup.ColorFormat with
  | false => simp [a5, a6, a7, a8] at h
  | true =>
  cases hsz : resolveSize w tex.Setup with
  | error e => simp [a5, a6, a7, a8, hsz] at h
  | ok r =>
  obtain ⟨width, height, provider⟩ := r
  by_cases hpos : 0 < width ∧ 0 < height
  swap
  · have : (decide (width > 0) && decide (height > 0)) = false := by
      by_contra hc
      simp at hc
      exact hpos hc
    simp [a5, a6, a7, a8, hsz, this] at h
  have hposb : (decide (width > 0) && decide (height > 0)) = true := by
    simp [hpos.1, hpos.2]
  cases hsup : formats.backendSupports tex.Setup.ColorFormat with
  | false => simp [a5, a6, a7, a8, hsz, hposb, AllocRenderTarget, hpos, hsup] at h
  | true =>
  cases hfree : w.freeRTV with
  | nil => simp [a5, a6, a7, a8, hsz, hposb, AllocRenderTarget, hpos, hsup, Allocate, hfree] at h
  | cons slot rest =>
  cases hd : tex.Setup.HasDepth with
  | false =>
    simp [a5, a6, a7, a8, hsz, hposb, AllocRenderTarget, hpos, hsup, Allocate, hfree, hd, Pure.pure,
      Except.pure] at h
    refine ⟨h.1.symm, ⟨a1, a2, a3, a4⟩, width, height, provider, slot, rest, rfl, hpos.1, hpos.2,
      rfl, rfl, Or.inl ⟨rfl, ?_, ?_⟩⟩
    · rw [← h.2.1, a2, a4]
    · rw [← h.2.2]
  | true =>
    simp [a5, a6, a7, a8, hsz, hposb, AllocRenderTarget, hpos, hsup, Allocate, hfree, hd, Pure.pure,
      Except.pure] at h
    split at h
    · cases h
    · rename_i v heq
      simp only [Except.ok.injEq, Prod.mk.injEq] at h
      refine ⟨h.1.symm, ⟨a1, a2, a3, a4⟩, width, height, provider, slot, rest, rfl, hpos.1,
        hpos.2, rfl, rfl, Or.inr ⟨rfl, ?_⟩⟩
      rw [a2, a4, heq, ← h.2]

/-! ## Reference counts over sequences of calls -/

theorem countP_set_add {α : Type} (q : α → Bool) (l : List α) (i : Nat) (a b : α)
    (h : l[i]? = some a) :
    (l.set i b).countP q + (if q a = true then 1 else 0) =
      l.countP q + (if q b = true then 1 else 0) := by
  induction l generalizing i with
  | nil => simp at h
  | cons x xs ih =>
    cases i with
    | zero =>
      simp only [List.getElem?_cons_zero, Option.some.injEq] at h
      subst h
      simp only [List.set_cons_zero, List.countP_cons]
      omega
    | succ n =>
      simp only [List.getElem?_cons_succ] at h
      have := ih n h
      simp only [List.set_cons_succ, List.countP_cons]
      omega

theorem depthUsers_set (pool : List texture) (i : Nat) (tex tex1 : texture) (o : Nat)
    (h : pool[i]? = some tex) :
    depthUsers (pool.set i tex1) o + refersTo tex.d3d12DepthBufferRes o =
      depthUsers pool o + refersTo tex1.d3d12DepthBufferRes o := by
  have := countP_set_add (fun t => decide (t.d3d12DepthBufferRes = some o)) pool i tex tex1 h
  simpa [depthUsers, refersTo] using this

theorem colorUsers_set (pool : List texture) (i : Nat) (tex tex1 : texture) (o : Nat)
    (h : pool[i]? = some tex) :
    colorUsers (pool.set i tex1) o + refersTo tex.d3d12TextureRes o =
      colorUsers pool o + refersTo tex1.d3d12TextureRes o := by
  have := countP_set_add (fun t => decide (t.d3d12TextureRes = some o)) pool i tex tex1 h
  simpa [colorUsers, refersTo] using this

theorem depthUsers_pos_of_mem (pool : List texture) (t : texture) (o : Nat) (hm : t ∈ pool)
    (h : t.d3d12DepthBufferRes = some o) : 0 < depthUsers pool o := by
  unfold depthUsers
  rw [List.countP_pos_iff]
  exact ⟨t, hm, by simp [h]⟩

theorem colorUsers_pos_of_mem (pool : List texture) (t : texture) (o : Nat) (hm : t ∈ pool)
    (h : t.d3d12TextureRes = some o) : 0 < colorUsers pool o := by
  unfold colorUsers
  rw [List.countP_pos_iff]
  exact ⟨t, hm, by simp [h]⟩

theorem exists_of_depthUsers_pos (pool : List texture) (o : Nat) (h : 0 < depthUsers pool o) :
    ∃ t ∈ pool, t.d3d12DepthBufferRes = some o := by
  unfold depthUsers at h
  rw [List.countP_pos_iff] at h
  obtain ⟨t, hm, ht⟩ := h
  exact ⟨t, hm, by simpa using ht⟩

theorem exists_of_colorUsers_pos (pool : List texture) (o : Nat) (h : 0 < colorUsers pool o) :
    ∃ t ∈ pool, t.d3d12TextureRes = some o := by
  unfold colorUsers at h
  rw [List.countP_pos_iff] at h
  obtain ⟨t, hm, ht⟩ := h
  exact ⟨t, hm, by simpa using ht⟩

theorem refersTo_le_one (ptr : Option Nat) (o : Nat) : refersTo ptr o ≤ 1 := by
  unfold refersTo; split <;> omega

theorem refersTo_pos (ptr : Option Nat) (o : Nat) (h : 0 < refersTo ptr o) : ptr = some o := by
  unfold refersTo at h
  by_contra hc
  simp [hc] at h

theorem refersTo_eq_one (ptr : Option Nat) (o : Nat) (h : ptr = some o) : refersTo ptr o = 1 := by
  simp [refersTo, h]

theorem refersTo_eq_zero (ptr : Option Nat) (o : Nat) (h : ptr ≠ some o) : refersTo ptr o = 0 := by
  simp [refersTo, h]

/-- A returning call keeps the invariant. -/
theorem Inv_of_CallEffect (w w1 : World) (i : Nat) (tex tex1 : texture)
    (hinv : w.Inv) (hget : w.pool[i]? = some tex) (heff : CallEffect w tex tex1 w1) :
    World.Inv { w1 with pool := w1.pool.set i tex1 } := by
  obtain ⟨hA, hB, hC⟩ := hinv
  obtain ⟨hpool, hnext, href, hcol, hdep, hdis⟩ := heff
  have hmem : tex ∈ w.pool := List.getElem?_mem hget
  have hdU := fun o => depthUsers_set w.pool i tex tex1 o hget
  have hcU := fun o => colorUsers_set w.pool i tex tex1 o hget
  have hfreshD : ∀ o, w.nextObj ≤ o → depthUsers w.pool o = 0 := by
    intro o ho
    by_contra hc
    obtain ⟨t, hm, ht⟩ := exists_of_depthUsers_pos w.pool o (Nat.pos_of_ne_zero hc)
    have := hA t hm o (Or.inr ht)
    omega
  have hfreshC : ∀ o, w.nextObj ≤ o → colorUsers w.pool o = 0 := by
    intro o ho
    by_contra hc
    obtain ⟨t, hm, ht⟩ := exists_of_colorUsers_pos w.pool o (Nat.pos_of_ne_zero hc)
    have := hA t hm o (Or.inl ht)
    omega
  refine ⟨?_, ?_, ?_⟩
  · intro t ht o ho
    simp only [hpool] at ht ⊢
    rcases List.mem_or_eq_of_mem_set ht with hin | heq
    · have := hA t hin o ho
      omega
    · subst heq
      rcases ho with ho | ho
      · rcases hcol o ho with h1 | h1
        · have := hA tex hmem o (Or.inl h1)
          omega
        · exact h1.2
      · rcases hdep o ho with h1 | ⟨p, hp, h1⟩ | h1
        · have := hA tex hmem o (Or.inr h1)
          omega
        · have := hA p hp o (Or.inr h1)
          omega
        · exact h1.2
  · intro o
    simp only [hpool]
    have h1 := hdU o
    have h2 := hcU o
    have h3 := href o
    have h4 := hB o
    omega
  · intro o hpos
    simp only [hpool] at hpos ⊢
    have h1 := hdU o
    have h2 := hcU o
    have b1 := refersTo_le_one tex.d3d12TextureRes o
    have b2 := refersTo_le_one tex.d3d12DepthBufferRes o
    have b3 := refersTo_le_one tex1.d3d12TextureRes o
    have b4 := refersTo_le_one tex1.d3d12DepthBufferRes o
    have hCo := hC o
    by_cases hc1 : tex1.d3d12TextureRes = some o
    · rcases hcol o hc1 with hold | hnew
      · -- the color buffer was already there
        have hcpos := colorUsers_pos_of_mem w.pool tex o hmem hold
        have hd0 : depthUsers w.pool o = 0 := by
          by_contra hc
          have := hCo (Nat.pos_of_ne_zero hc)
          omega
        have hd1 : tex1.d3d12DepthBufferRes = some o := by
          apply refersTo_pos
          omega
        have := (hdis o hc1 hd1).2
        have := depthUsers_pos_of_mem w.pool tex o hmem this
        omega
      · have hd0 := hfreshD o hnew.1
        have hd1 : tex1.d3d12DepthBufferRes = some o := by
          apply refersTo_pos
          omega
        have := (hdis o hc1 hd1).1
        have := hA tex hmem o (Or.inl this)
        omega
    · have hz := refersTo_eq_zero _ o hc1
      by_cases hc0 : colorUsers w.pool o = 0
      · omega
      · have hd0 : depthUsers w.pool o = 0 := by
          by_contra hc
          have := hCo (Nat.pos_of_ne_zero hc)
          omega
        have hd1 : tex1.d3d12DepthBufferRes = some o := by
          apply refersTo_pos
          omega
        rcases hdep o hd1 with h5 | ⟨p, hp, h5⟩ | h5
        · have := depthUsers_pos_of_mem w.pool tex o hmem h5
          omega
        · have := depthUsers_pos_of_mem w.pool p o hp h5
          omega
        · have := hfreshC o h5.1
          omega

theorem refCount_append (l es : List Event) (o : Nat) :
    refCount (l ++ es) o = refCount l o + refCount es o := by
  simp [refCount, List.sum_append]

theorem resolveSize_provider_mem (w : World) (setup : TextureSetup) (width height : Int)
    (p : texture) (h : resolveSize w setup = Except.ok (width, height, some p)) :
    p ∈ w.pool := by
  unfold resolveSize at h
  split at h
  · simp at h
  · split at h
    · split at h
      · simp at h
      · rename_i q hq
        simp only [Except.ok.injEq, Prod.mk.injEq, Option.some.injEq] at h
        rw [← h.2.2]
        exact List.getElem?_mem hq
    · simp at h

/-- A returning `SetupResource` either changed nothing (status `InvalidState`)
or is a returning `createRenderTarget`. -/
theorem SetupResource_ok (formats : PixelFormats)
    (f : d3d12TextureFactory) (w : World) (tex : texture) (c : ResourceState)
    (tex1 : texture) (w1 : World)
    (h : SetupResource formats f w tex = Except.ok (c, tex1, w1)) :
    (c = ResourceState.InvalidState ∧ tex1 = tex ∧ w1 = w) ∨
    createRenderTarget formats w tex = Except.ok (c, tex1, w1) := by
  unfold SetupResource at h
  cases hf : f.isValid with
  | false => simp [o_assert_dbg, hf, Bind.bind, Except.bind] at h
  | true =>
  cases hp : tex.Setup.ShouldSetupFromPixelData with
  | true => simp [o_assert_dbg, hf, hp, Bind.bind, Except.bind] at h
  | false =>
  cases hfile : tex.Setup.ShouldSetupFromFile with
  | true => simp [o_assert_dbg, hf, hp, hfile, Bind.bind, Except.bind] at h
  | false =>
  cases hrt : tex.Setup.ShouldSetupAsRenderTarget with
  | true =>
    right
    simpa [o_assert_dbg, hf, hp, hfile, hrt, Bind.bind, Except.bind] using h
  | false =>
    left
    simp [o_assert_dbg, hf, hp, hfile, hrt, Bind.bind, Except.bind, Pure.pure, Except.pure] at h
    exact ⟨h.1.symm, h.2.1.symm, h.2.2.symm⟩

theorem CallEffect_refl (w : World) (tex : texture) : CallEffect w tex tex w :=
  ⟨rfl, le_refl _, fun _ => rfl, fun _ h => Or.inl h, fun _ h => Or.inl h,
    fun _ h1 h2 => ⟨h1, h2⟩⟩

/-- The effect of a returning `SetupResource`, in a world where every object
a record refers to has been created. -/
theorem SetupResource_effect (formats : PixelFormats)
    (f : d3d12TextureFactory) (w : World) (tex : texture) (c : ResourceState)
    (tex1 : texture) (w1 : World)
    (hA : ∀ t ∈ w.pool, ∀ o,
      t.d3d12TextureRes = some o ∨ t.d3d12DepthBufferRes = some o → o < w.nextObj)
    (h : SetupResource formats f w tex = Except.ok (c, tex1, w1)) :
    CallEffect w tex tex1 w1 := by
  rcases SetupResource_ok _ f w tex c tex1 w1 h with ⟨_, h1, h2⟩ | hcr
  · rw [h1, h2]
    exact CallEffect_refl w tex
  · obtain ⟨_, ⟨a1, a2, _, _⟩, width, height, provider, slot, rest, hsz, _, _, _, _, hcase⟩ :=
      createRenderTarget_ok _ w tex c tex1 w1 hcr
    rcases hcase with ⟨_, ht, hw⟩ | ⟨_, hdb⟩
    · rw [ht, hw]
      refine ⟨rfl, by simp, ?_, ?_, ?_, ?_⟩
      · intro o
        simp [refCount_append, refCount, Event.refDelta, refersTo, a1, a2]
      · intro o ho
        simp at ho
        right; simp; omega
      · intro o ho
        simp [a2] at ho
      · intro o _ ho
        simp [a2] at ho
    · obtain ⟨dslot, drest, _, hcase2⟩ := createDepthBuffer_ok _ _ _ width height provider tex1 w1 hdb
      rcases hcase2 with ⟨p, obj, _, hp, hobj, ht, hw⟩ | ⟨_, _, _, _, ht, hw⟩
      · have hmem : p ∈ w.pool := resolveSize_provider_mem w tex.Setup width height p (hp ▸ hsz)
        have hlt : obj < w.nextObj := hA p hmem obj (Or.inr hobj)
        rw [ht, hw]
        refine ⟨rfl, by simp, ?_, ?_, ?_, ?_⟩
        · intro o
          simp [refCount_append, refCount, Event.refDelta, refersTo, a1, a2]
          omega
        · intro o ho
          simp at ho
          right; simp; omega
        · intro o ho
          simp at ho
          right; left
          exact ⟨p, hmem, by rw [hobj, ho]⟩
        · intro o hc hd
          simp at hc hd
          omega
      · rw [ht, hw]
        refine ⟨rfl, by simp; omega, ?_, ?_, ?_, ?_⟩
        · intro o
          simp [refCount_append, refCount, Event.refDelta, refersTo, a1, a2]
          omega
        · intro o ho
          simp at ho
          right; simp; omega
        · intro o ho
          simp at ho
          right; right; simp; omega
        · intro o hc hd
          simp at hc hd
          omega

/-- The effect of a returning `DestroyResource`. -/
theorem DestroyResource_effect (f : d3d12TextureFactory) (w : World) (tex tex1 : texture)
    (w1 : World) (h : DestroyResource f w tex = Except.ok (tex1, w1)) :
    CallEffect w tex tex1 w1 := by
  cases hf : f.isValid with
  | false => simp [DestroyResource, o_assert_dbg, hf, Bind.bind, Except.bind] at h
  | true =>
    rw [DestroyResource_eq f w tex hf] at h
    simp only [Except.ok.injEq, Prod.mk.injEq] at h
    rw [← h.1, ← h.2]
    refine ⟨rfl, le_refl _, ?_, ?_, ?_, ?_⟩
    · intro o
      cases hc : tex.d3d12TextureRes <;> cases hd : tex.d3d12DepthBufferRes <;>
        cases hr : tex.renderTargetView <;> cases hv : tex.depthStencilView <;>
        simp [refCount_append, refCount, Event.refDelta, refersTo, releaseEvents, texture.Clear,
          hc, hd, hr, hv] <;> omega
    · intro o ho
      simp [texture.Clear] at ho
    · intro o ho
      simp [texture.Clear] at ho
    · intro o ho
      simp [texture.Clear] at ho

/-- Every returning call keeps the invariant. -/
theorem Inv_applyCall (formats : PixelFormats)
    (f : d3d12TextureFactory) (w w1 : World) (c : Call) (hinv : w.Inv)
    (h : applyCall formats f w c = Except.ok w1) : w1.Inv := by
  cases c with
  | SetupResource i =>
    unfold applyCall at h
    cases hget : w.pool[i]? with
    | none => simp [hget] at h
    | some tex =>
      simp only [hget] at h
      split at h
      · cases h
      · rename_i code tex1 w2 hs
        simp only [Except.ok.injEq] at h
        rw [← h]
        exact Inv_of_CallEffect w w2 i tex tex1 hinv hget
          (SetupResource_effect _ f w tex code tex1 w2 hinv.1 hs)
  | DestroyResource i =>
    unfold applyCall at h
    cases hget : w.pool[i]? with
    | none => simp [hget] at h
    | some tex =>
      simp only [hget] at h
      split at h
      · cases h
      · rename_i tex1 w2 hs
        simp only [Except.ok.injEq] at h
        rw [← h]
        exact Inv_of_CallEffect w w2 i tex tex1 hinv hget (DestroyResource_effect f w tex tex1 w2 hs)

/-- Every returning sequence of calls keeps the invariant. -/
theorem Inv_runCalls (formats : PixelFormats)
    (f : d3d12TextureFactory) (cs : List Call) (w w1 : World) (hinv : w.Inv)
    (h : runCalls formats f cs w = Except.ok w1) : w1.Inv := by
  induction cs generalizing w with
  | nil =>
    simp only [runCalls, Except.ok.injEq] at h
    rw [← h]
    exact hinv
  | cons c cs ih =>
    simp only [runCalls] at h
    split at h
    · cases h
    · rename_i w2 hc
      exact ih w2 (Inv_applyCall _ f w w2 c hinv hc) h

/-- Before any call the invariant holds. -/
theorem Inv_initial (w : World) (h : w.initial) : w.Inv := by
  obtain ⟨hlog, hun⟩ := h
  have hd : ∀ o, depthUsers w.pool o = 0 := by
    intro o
    unfold depthUsers
    rw [List.countP_eq_zero]
    intro t ht
    simp [(hun t ht).2.1]
  have hc : ∀ o, colorUsers w.pool o = 0 := by
    intro o
    unfold colorUsers
    rw [List.countP_eq_zero]
    intro t ht
    simp [(hun t ht).1]
  refine ⟨?_, ?_, ?_⟩
  · intro t ht o ho
    rcases ho with ho | ho
    · rw [(hun t ht).1] at ho
      cases ho
    · rw [(hun t ht).2.1] at ho
      cases ho
  · intro o
    simp [hlog, refCount, hd o, hc o]
  · intro o _
    exact hc o

/-- An object that exists and is no record's color buffer stays so over a
returning call: color buffers are always newly created objects. -/
theorem colorFree_applyCall (formats : PixelFormats)
    (f : d3d12TextureFactory) (w w1 : World) (c : Call) (o : Nat) (hinv : w.Inv)
    (hlt : o < w.nextObj) (hfree : colorUsers w.pool o = 0)
    (h : applyCall formats f w c = Except.ok w1) :
    o < w1.nextObj ∧ colorUsers w1.pool o = 0 := by
  have key : ∀ (i : Nat) (tex tex1 : texture) (w2 : World), w.pool[i]? = some tex →
      CallEffect w tex tex1 w2 →
      o < w2.nextObj ∧ colorUsers (w2.pool.set i tex1) o = 0 := by
    intro i tex tex1 w2 hget heff
    obtain ⟨hpool, hnext, _, hcol, _, _⟩ := heff
    refine ⟨by omega, ?_⟩
    rw [hpool]
    have h1 := colorUsers_set w.pool i tex tex1 o hget
    have h2 : refersTo tex1.d3d12TextureRes o = 0 := by
      by_contra hc
      have hp := refersTo_pos _ o (Nat.pos_of_ne_zero hc)
      rcases hcol o hp with h3 | h3
      · have := colorUsers_pos_of_mem w.pool tex o (List.getElem?_mem hget) h3
        omega
      · omega
    omega
  cases c with
  | SetupResource i =>
    unfold applyCall at h
    cases hget : w.pool[i]? with
    | none => simp [hget] at h
    | some tex =>
      simp only [hget] at h
      split at h
      · cases h
      · rename_i code tex1 w2 hs
        simp only [Except.ok.injEq] at h
        rw [← h]
        exact key i tex tex1 w2 hget (SetupResource_effect _ f w tex code tex1 w2 hinv.1 hs)
  | DestroyResource i =>
    unfold applyCall at h
    cases hget : w.pool[i]? with
    | none => simp [hget] at h
    | some tex =>
      simp only [hget] at h
      split at h
      · cases h
      · rename_i tex1 w2 hs
        simp only [Except.ok.injEq] at h
        rw [← h]
        exact key i tex tex1 w2 hget (DestroyResource_effect f w tex tex1 w2 hs)

theorem colorFree_runCalls (formats : PixelFormats)
    (f : d3d12TextureFactory) (cs : List Call) (w w1 : World) (o : Nat) (hinv : w.Inv)
    (hlt : o < w.nextObj) (hfree : colorUsers w.pool o = 0)
    (h : runCalls formats f cs w = Except.ok w1) :
    colorUsers w1.pool o = 0 := by
  induction cs generalizing w with
  | nil =>
    simp only [runCalls, Except.ok.injEq] at h
    rw [← h]
    exact hfree
  | cons c cs ih =>
    simp only [runCalls] at h
    split at h
    · cases h
    · rename_i w2 hc
      have := colorFree_applyCall _ f w w2 c o hinv hlt hfree hc
      exact ih w2 (Inv_applyCall _ f w w2 c hinv hc) this.1 this.2 h

/-- C3: start with nothing issued and every record all-unset, and run any
sequence of `SetupResource` and `DestroyResource` calls on the records of the
pool that returns.  For every object `o` that is the depth buffer of some
record at some point of the run, at every later point of the run the
reference count of `o` (1 at `AllocRenderTarget`, +1 per `AddRef`, -1 per
`ReleaseDeferred`) equals the number of records whose depth-buffer field
refers to `o`; so it is at least 1 while a record aliases `o`, and it is 0
exactly when no record does, whatever the order of the destroy calls. -/
theorem refCount_eq_depthUsers (formats : PixelFormats)
    (f : d3d12TextureFactory) (w0 w1 w2 : World) (cs1 cs2 : List Call) (o : Nat)
    (hinit : w0.initial)
    (hrun1 : runCalls formats f cs1 w0 = Except.ok w1)
    (hdepth : 0 < depthUsers w1.pool o)
    (hrun2 : runCalls formats f cs2 w1 = Except.ok w2) :
    refCount w2.log o = (depthUsers w2.pool o : Int) ∧
    (0 < depthUsers w2.pool o → 1 ≤ refCount w2.log o) ∧
    (refCount w2.log o = 0 ↔ depthUsers w2.pool o = 0) := by
  have hinv1 : w1.Inv := Inv_runCalls _ f cs1 w0 w1 (Inv_initial w0 hinit) hrun1
  have hinv2 : w2.Inv := Inv_runCalls _ f cs2 w1 w2 hinv1 hrun2
  obtain ⟨t, ht, hto⟩ := exists_of_depthUsers_pos w1.pool o hdepth
  have hlt : o < w1.nextObj := hinv1.1 t ht o (Or.inr hto)
  have hfree : colorUsers w1.pool o = 0 := hinv1.2.2 o hdepth
  have hfree2 := colorFree_runCalls _ f cs2 w1 w2 o hinv1 hlt hfree hrun2
  have heq : refCount w2.log o = (depthUsers w2.pool o : Int) := by
    have := hinv2.2.1 o
    rw [hfree2] at this
    simpa using this
  refine ⟨heq, ?_, ?_⟩
  · intro hpos
    omega
  · rw [heq]
    omega

/-- Witness for C3: slot 0 is set up with a private depth buffer (object 1),
slot 1 aliases it (count 2, two records); then the provider in slot 0 is
destroyed first: the count is 1 and one record, slot 1, still refers to the
object. -/
theorem refCount_eq_depthUsers_witness :
    sharingWorld.initial ∧
    runCalls sampleFormats ⟨true⟩ [Call.SetupResource 0, Call.SetupResource 1] sharingWorld =
      Except.ok (worldAfter [Call.SetupResource 0, Call.SetupResource 1] sharingWorld) ∧
    depthUsers (worldAfter [Call.SetupResource 0, Call.SetupResource 1] sharingWorld).pool 1 = 2 ∧
    runCalls sampleFormats ⟨true⟩ [Call.DestroyResource 0]
        (worldAfter [Call.SetupResource 0, Call.SetupResource 1] sharingWorld) =
      Except.ok (worldAfter [Call.SetupResource 0, Call.SetupResource 1, Call.DestroyResource 0]
        sharingWorld) ∧
    depthUsers (worldAfter [Call.SetupResource 0, Call.SetupResource 1, Call.DestroyResource 0]
        sharingWorld).pool 1 = 1 ∧
    refCount (worldAfter [Call.SetupResource 0, Call.SetupResource 1, Call.DestroyResource 0]
        sharingWorld).log 1 = 1 := by
  have hinit : sharingWorld.initial := by
    refine ⟨rfl, ?_⟩
    intro t ht
    simp only [sharingWorld, sampleWorld, List.mem_cons, List.mem_singleton, List.not_mem_nil,
      or_false] at ht
    rcases ht with rfl | rfl <;> exact ⟨rfl, rfl, rfl, rfl⟩
  have h := refCount_eq_depthUsers sampleFormats ⟨true⟩ sharingWorld
    (worldAfter [Call.SetupResource 0, Call.SetupResource 1] sharingWorld)
    (worldAfter [Call.SetupResource 0, Call.SetupResource 1, Call.DestroyResource 0] sharingWorld)
    [Call.SetupResource 0, Call.SetupResource 1] [Call.DestroyResource 0] 1
    hinit rfl (by decide) rfl
  have hd : depthUsers (worldAfter [Call.SetupResource 0, Call.SetupResource 1,
      Call.DestroyResource 0] sharingWorld).pool 1 = 1 := by decide
  refine ⟨hinit, rfl, by decide, rfl, hd, ?_⟩
  rw [h.1, hd]
  rfl

/-! ## The two defects of the shared-depth path, in general -/

/-- No returning `SetupResource` writes the attributes block of the record: the
resolved width and height are not stored. -/
theorem SetupResource_keeps_textureAttrs (formats : PixelFormats)
    (f : d3d12TextureFactory) (w : World) (tex : texture) (c : ResourceState)
    (tex1 : texture) (w1 : World)
    (h : SetupResource formats f w tex = Except.ok (c, tex1, w1)) :
    tex1.textureAttrs = tex.textureAttrs := by
  rcases SetupResource_ok _ f w tex c tex1 w1 h with ⟨_, h1, _⟩ | hcr
  · rw [h1]
  · obtain ⟨_, _, width, height, provider, slot, rest, _, _, _, _, _, hcase⟩ :=
      createRenderTarget_ok _ w tex c tex1 w1 hcr
    rcases hcase with ⟨_, ht, _⟩ | ⟨_, hdb⟩
    · rw [ht]
    · obtain ⟨_, _, _, hcase2⟩ := createDepthBuffer_ok _ _ _ width height provider tex1 w1 hdb
      rcases hcase2 with ⟨_, _, _, _, _, ht, _⟩ | ⟨_, _, _, _, ht, _⟩ <;> rw [ht]

/-- A relative-sized render-target setup that requests a shared depth buffer
never comes back from `SetupResource`: the provider pointer is null. -/
theorem SetupResource_relSize_shared_never_returns
    (formats : PixelFormats)
    (f : d3d12TextureFactory) (w : World) (tex : texture) (c : ResourceState)
    (tex1 : texture) (w1 : World)
    (hmode : tex.Setup.ShouldSetupAsRenderTarget = true)
    (hrel : tex.Setup.IsRelSizeRenderTarget = true)
    (hdepth : tex.Setup.HasDepth = true)
    (hshared : tex.Setup.HasSharedDepth = true) :
    SetupResource formats f w tex ≠ Except.ok (c, tex1, w1) := by
  intro h
  obtain ⟨hpix, hfile⟩ := modes_of_renderTarget tex.Setup hmode
  have hcr : createRenderTarget formats w tex = Except.ok (c, tex1, w1) := by
    cases hf : f.isValid with
    | false => simp [SetupResource, o_assert_dbg, hf, Bind.bind, Except.bind] at h
    | true =>
      simpa [SetupResource, o_assert_dbg, hf, hpix, hfile, hmode, Bind.bind, Except.bind] using h
  have hmain : False := by
    obtain ⟨_, _, width, height, provider, slot, rest, hsz, _, _, _, _, hcase⟩ :=
      createRenderTarget_ok _ w tex c tex1 w1 hcr
    have hnone : provider = none := by
      simp [resolveSize, hrel] at hsz
      exact hsz.2.2.symm
    rcases hcase with ⟨hd, _, _⟩ | ⟨_, hdb⟩
    · rw [hdepth] at hd
      cases hd
    · obtain ⟨_, _, _, hcase2⟩ := createDepthBuffer_ok _ _ _ width height provider tex1 w1 hdb
      rcases hcase2 with ⟨p, _, _, hp, _⟩ | ⟨hs, _⟩
      · rw [hnone] at hp
        cases hp
      · simp [hshared] at hs
  exact hmain

/-- The depth-buffer part fails by a null dereference only when the provider
pointer is null on the shared path. -/
theorem createDepthBuffer_error (formats : PixelFormats) (w : World) (tex : texture)
    (width height : Int)
    (provider : Option texture) (e : Fault)
    (h : createDepthBuffer formats w tex width height provider = Except.error e) :
    e = Fault.assertion ∨ (tex.Setup.HasSharedDepth = true ∧ provider = none) := by
  unfold createDepthBuffer at h
  cases hs : tex.Setup.HasSharedDepth with
  | true =>
    cases hp : provider with
    | none => right; exact ⟨rfl, rfl⟩
    | some p =>
      left
      cases hobj : p.d3d12DepthBufferRes with
      | none =>
        simp [hs, hp, hobj, Bind.bind, Except.bind] at h
        exact h.symm
      | some obj =>
        cases hfree : w.freeDSV with
        | nil =>
          simp [hs, hp, hobj, Allocate, hfree, Bind.bind, Except.bind] at h
          exact h.symm
        | cons slot rest =>
          simp [hs, hp, hobj, Allocate, hfree, Bind.bind, Except.bind, Pure.pure,
            Except.pure] at h
  | false =>
    left
    by_cases hpos : 0 < width ∧ 0 < height ∧ formats.backendSupports tex.Setup.DepthFormat = true
    · cases hfree : w.freeDSV with
      | nil =>
        simp [hs, AllocRenderTarget, hpos, Allocate, hfree, Bind.bind, Except.bind] at h
        exact h.symm
      | cons slot rest =>
        simp [hs, AllocRenderTarget, hpos, Allocate, hfree, Bind.bind, Except.bind, Pure.pure,
          Except.pure] at h
    · simp [hs, AllocRenderTarget, hpos, Bind.bind, Except.bind] at h
      exact h.symm

/-- On a render-target setup a returning `SetupResource` is a returning
`createRenderTarget`. -/
theorem SetupResource_renderTarget_ok (formats : PixelFormats)
    (f : d3d12TextureFactory) (w : World) (tex : texture) (c : ResourceState)
    (tex1 : texture) (w1 : World)
    (hmode : tex.Setup.ShouldSetupAsRenderTarget = true)
    (h : SetupResource formats f w tex = Except.ok (c, tex1, w1)) :
    createRenderTarget formats w tex = Except.ok (c, tex1, w1) := by
  obtain ⟨hpix, hfile⟩ := modes_of_renderTarget tex.Setup hmode
  cases hf : f.isValid with
  | false => simp [SetupResource, o_assert_dbg, hf, Bind.bind, Except.bind] at h
  | true =>
    simpa [SetupResource, o_assert_dbg, hf, hpix, hfile, hmode, Bind.bind, Except.bind] using h

/-- A fatal `createRenderTarget` is a failed assertion, except for the null
dereference on the shared path when the size resolution left the provider
pointer null. -/
theorem createRenderTarget_error (formats : PixelFormats)
    (w : World) (tex : texture) (e : Fault)
    (h : createRenderTarget formats w tex = Except.error e) :
    e = Fault.assertion ∨
    (tex.Setup.HasDepth = true ∧ tex.Setup.HasSharedDepth = true ∧
      ∃ width height, resolveSize w tex.Setup = Except.ok (width, height, none)) := by
  unfold createRenderTarget at h
  by_cases a1 : tex.d3d12TextureRes = none
  swap
  · simp [o_assert_dbg, a1, Bind.bind, Except.bind] at h
    exact Or.inl h.symm
  by_cases a2 : tex.d3d12DepthBufferRes = none
  swap
  · simp [o_assert_dbg, a1, a2, Bind.bind, Except.bind] at h
    exact Or.inl h.symm
  cases a3 : tex.renderTargetView with
  | some v =>
    simp [o_assert_dbg, a1, a2, a3, IsValid, Bind.bind, Except.bind] at h
    exact Or.inl h.symm
  | none =>
  cases a4 : tex.depthStencilView with
  | some v =>
    simp [o_assert_dbg, a1, a2, a3, a4, IsValid, Bind.bind, Except.bind] at h
    exact Or.inl h.symm
  | none =>
  simp only [o_assert_dbg, a1, a2, a3, a4, IsValid, Option.isSome, decide_True, Bool.not_false,
    if_true, Bind.bind, Except.bind] at h
  cases a5 : tex.Setup.ShouldSetupAsRenderTarget with
  | false =>
    simp [a5] at h
    exact Or.inl h.symm
  | true =>
  by_cases a6 : tex.Setup.NumMipMaps = 1
  swap
  · simp [a5, a6] at h
    exact Or.inl h.symm
  by_cases a7 : tex.Setup.TexType = TextureType.Texture2D
  swap
  · simp [a5, a6, a7] at h
    exact Or.inl h.symm
  cases a8 : formats.IsValidRenderTargetColorFormat tex.Setup.ColorFormat with
  | false =>
    simp [a5, a6, a7, a8] at h
    exact Or.inl h.symm
  | true =>
  cases hsz : resolveSize w tex.Setup with
  | error e1 =>
    simp [a5, a6, a7, a8, hsz] at h
    left
    rw [← h]
    unfold resolveSize at hsz
    split at hsz
    · cases hsz
    · split at hsz
      · split at hsz
        · simp only [Except.error.injEq] at hsz
          exact hsz.symm
        · cases hsz
      · cases hsz
  | ok r =>
  obtain ⟨width, height, provider⟩ := r
  by_cases hpos : 0 < width ∧ 0 < height
  swap
  · have : (decide (width > 0) && decide (height > 0)) = false := by
      by_contra hc
      simp at hc
      exact hpos hc
    simp [a5, a6, a7, a8, hsz, this] at h
    exact Or.inl h.symm
  have hposb : (decide (width > 0) && decide (height > 0)) = true := by
    simp [hpos.1, hpos.2]
  cases hsup : formats.backendSupports tex.Setup.ColorFormat with
  | false =>
    simp [a5, a6, a7, a8, hsz, hposb, AllocRenderTarget, hpos, hsup] at h
    exact Or.inl h.symm
  | true =>
  cases hfree : w.freeRTV with
  | nil =>
    simp [a5, a6, a7, a8, hsz, hposb, AllocRenderTarget, hpos, hsup, Allocate, hfree] at h
    exact Or.inl h.symm
  | cons slot rest =>
  cases hd : tex.Setup.HasDepth with
  | false =>
    simp [a5, a6, a7, a8, hsz, hposb, AllocRenderTarget, hpos, hsup, Allocate, hfree, hd, Pure.pure,
      Except.pure] at h
  | true =>
    simp [a5, a6, a7, a8, hsz, hposb, AllocRenderTarget, hpos, hsup, Allocate, hfree, hd, Pure.pure,
      Except.pure] at h
    split at h
    · rename_i e2 heq
      simp only [Except.error.injEq] at h
      rw [← h]
      rcases createDepthBuffer_error _ _ _ width height provider e2 heq with h1 | ⟨h1, h2⟩
      · exact Or.inl h1
      · right
        refine ⟨rfl, h1, width, height, ?_⟩
        rw [h2]
    · cases h

/-- Off the relative-size branch the provider check works as designed: a
render-target setup that requests a depth buffer shared from a provider
without depth buffer (or from no record at all) always ends in a failed
assertion. -/
theorem SetupResource_shared_without_depth_asserts
    (formats : PixelFormats)
    (f : d3d12TextureFactory) (w : World) (tex : texture)
    (hmode : tex.Setup.ShouldSetupAsRenderTarget = true)
    (hrel : tex.Setup.IsRelSizeRenderTarget = false)
    (hdepth : tex.Setup.HasDepth = true)
    (hshared : tex.Setup.HasSharedDepth = true)
    (hprov : ∀ p, Lookup w tex.Setup.DepthRenderTarget = some p → p.d3d12DepthBufferRes = none) :
    SetupResource formats f w tex = Except.error Fault.assertion := by
  obtain ⟨hpix, hfile⟩ := modes_of_renderTarget tex.Setup hmode
  have hsome : ∀ width height provider,
      resolveSize w tex.Setup = Except.ok (width, height, provider) →
      ∃ p, provider = some p ∧ p.d3d12DepthBufferRes = none := by
    intro width height provider hsz
    simp only [resolveSize, hrel, hshared, if_true, Bool.false_eq_true, if_false] at hsz
    split at hsz
    · cases hsz
    · rename_i q hq
      simp only [Except.ok.injEq, Prod.mk.injEq] at hsz
      exact ⟨q, hsz.2.2.symm, hprov q hq⟩
  cases hres : SetupResource formats f w tex with
  | ok r =>
    exfalso
    obtain ⟨c, tex1, w1⟩ := r
    have hcr := SetupResource_renderTarget_ok _ f w tex c tex1 w1 hmode hres
    obtain ⟨_, _, width, height, provider, slot, rest, hsz, _, _, _, _, hcase⟩ :=
      createRenderTarget_ok _ w tex c tex1 w1 hcr
    obtain ⟨q, hq, hqd⟩ := hsome width height provider hsz
    rcases hcase with ⟨hd, _, _⟩ | ⟨_, hdb⟩
    · rw [hdepth] at hd
      cases hd
    · obtain ⟨_, _, _, hcase2⟩ := createDepthBuffer_ok _ _ _ width height provider tex1 w1 hdb
      rcases hcase2 with ⟨p, obj, _, hp, hobj, _⟩ | ⟨hs, _⟩
      · rw [hq] at hp
        have hpq : q = p := Option.some.inj hp
        rw [← hpq, hqd] at hobj
        cases hobj
      · simp [hshared] at hs
  | error e =>
    cases hf : f.isValid with
    | false =>
      simp [SetupResource, o_assert_dbg, hf, Bind.bind, Except.bind] at hres
      rw [hres]
    | true =>
      have hcr : createRenderTarget formats w tex = Except.error e := by
        simpa [SetupResource, o_assert_dbg, hf, hpix, hfile, hmode, Bind.bind, Except.bind]
          using hres
      rcases createRenderTarget_error _ w tex e hcr with h1 | ⟨_, _, width, height, hsz⟩
      · rw [h1]
      · obtain ⟨q, hq, _⟩ := hsome width height none hsz
        cases hq

/-- Off the relative-size branch the aliasing itself is as the design has it:
when the provider in the pool has depth object `obj` and a positive
attributes block, a valid fresh shared-depth setup whose color buffer and
views can be allocated returns `Valid`, the record's depth buffer is `obj`, and the calls issued are one
`AllocRenderTarget` (the color buffer), the two view allocations and
creations, and exactly one `AddRef obj`. -/
theorem SetupResource_shared_aliases_provider
    (formats : PixelFormats)
    (f : d3d12TextureFactory) (w : World) (tex p : texture) (obj rslot dslot : Nat)
    (rrest drest : List Nat)
    (hf : f.isValid = true)
    (hunset : tex.isUnset)
    (hmode : tex.Setup.ShouldSetupAsRenderTarget = true)
    (hmips : tex.Setup.NumMipMaps = 1)
    (htype : tex.Setup.TexType = TextureType.Texture2D)
    (hfmt : formats.IsValidRenderTargetColorFormat tex.Setup.ColorFormat = true)
    (hrel : tex.Setup.IsRelSizeRenderTarget = false)
    (hdepth : tex.Setup.HasDepth = true)
    (hshared : tex.Setup.HasSharedDepth = true)
    (hlookup : Lookup w tex.Setup.DepthRenderTarget = some p)
    (hobj : p.d3d12DepthBufferRes = some obj)
    (hwidth : 0 < p.textureAttrs.Width) (hheight : 0 < p.textureAttrs.Height)
    (hcolor : formats.backendSupports tex.Setup.ColorFormat = true)
    (hrtv : w.freeRTV = rslot :: rrest) (hdsv : w.freeDSV = dslot :: drest) :
    SetupResource formats f w tex =
      Except.ok (ResourceState.Valid,
        { tex with
          d3d12TextureRes := some w.nextObj
          d3d12DepthBufferRes := some obj
          renderTargetView := some ⟨DescType.RenderTargetView, rslot⟩
          depthStencilView := some ⟨DescType.DepthStencilView, dslot⟩ },
        { w with
          nextObj := w.nextObj + 1
          freeRTV := rrest
          freeDSV := drest
          log := w.log ++
            [Event.AllocRenderTarget w.nextObj p.textureAttrs.Width p.textureAttrs.Height
               tex.Setup.ColorFormat 1,
             Event.Allocate ⟨DescType.RenderTargetView, rslot⟩,
             Event.CreateRenderTargetView w.nextObj ⟨DescType.RenderTargetView, rslot⟩,
             Event.AddRef obj,
             Event.Allocate ⟨DescType.DepthStencilView, dslot⟩,
             Event.CreateDepthStencilView obj ⟨DescType.DepthStencilView, dslot⟩] }) := by
  obtain ⟨h1, h2, h3, h4⟩ := hunset
  obtain ⟨hpix, hfile⟩ := modes_of_renderTarget tex.Setup hmode
  have hsz : resolveSize w tex.Setup =
      Except.ok (p.textureAttrs.Width, p.textureAttrs.Height, some p) := by
    simp [resolveSize, hrel, hshared, hlookup]
  simp [SetupResource, createRenderTarget, createDepthBuffer, o_assert_dbg, hf, hpix, hfile,
    hmode, h1, h2, h3, h4, hmips, htype, hfmt, hsz, hwidth, hheight, hcolor, AllocRenderTarget,
    Allocate, hrtv, hdsv, hdepth, hshared, hobj, IsValid, Bind.bind, Except.bind, Pure.pure,
    Except.pure]

/-! ## Relative-sized render targets -/

theorem allocRequests_append (l es : List Event) :
    allocRequests (l ++ es) = allocRequests l ++ allocRequests es := by
  induction l with
  | nil => rfl
  | cons e l ih => cases e <;> simp [allocRequests, ih]

/-- Counterexample to C6: display framebuffer 6 by 6 and the fraction
`0.8333333f` (`13981013 / 2^24`) for both width and height.  The exact
products are below 5, so their floors are 4 (positive); the binary32 product
rounds up to `5.0f`, and both `AllocRenderTarget` calls, color buffer and
private depth buffer, are given 5 by 5. -/
theorem SetupResource_relSize_not_floor :
    (relSetup fiveSixthsBelow).IsRelSizeRenderTarget = true ∧
    (4 * 2 ^ 24 ≤ 6 * 13981013 ∧ 6 * 13981013 < 5 * 2 ^ 24) ∧
    exactFloor tinyWorld.FramebufferWidth (relSetup fiveSixthsBelow).RelWidth = 4 ∧
    exactFloor tinyWorld.FramebufferHeight (relSetup fiveSixthsBelow).RelHeight = 4 ∧
    (SetupResource sampleFormats ⟨true⟩ tinyWorld (freshTexture (relSetup fiveSixthsBelow))).map
        (fun r => (r.1, allocRequests r.2.2.log)) =
      Except.ok (ResourceState.Valid, [(5, 5, 1), (5, 5, 2)]) := by
  exact ⟨rfl, ⟨by decide, by decide⟩, by decide, by decide, rfl⟩

/-- Returning calls on a relative-sized setup, in general: whatever else holds,
every `AllocRenderTarget` call a returning `SetupResource` issued for a
relative-sized render-target setup was given `int32(FramebufferWidth *
RelWidth)` and `int32(FramebufferHeight * RelHeight)`, the first of them for
the color buffer. -/
theorem SetupResource_relSize_requests (formats : PixelFormats)
    (f : d3d12TextureFactory) (w : World) (tex : texture) (c : ResourceState)
    (tex1 : texture) (w1 : World)
    (hmode : tex.Setup.ShouldSetupAsRenderTarget = true)
    (hrel : tex.Setup.IsRelSizeRenderTarget = true)
    (h : SetupResource formats f w tex = Except.ok (c, tex1, w1)) :
    allocRequests w1.log = allocRequests w.log ++
      (relDim w.FramebufferWidth tex.Setup.RelWidth,
        relDim w.FramebufferHeight tex.Setup.RelHeight, tex.Setup.ColorFormat) ::
      (if tex.Setup.HasDepth = true then
        [(relDim w.FramebufferWidth tex.Setup.RelWidth,
          relDim w.FramebufferHeight tex.Setup.RelHeight, tex.Setup.DepthFormat)]
       else []) := by
  have hcr := SetupResource_renderTarget_ok _ f w tex c tex1 w1 hmode h
  obtain ⟨_, _, width, height, provider, slot, rest, hsz, _, _, _, _, hcase⟩ :=
    createRenderTarget_ok _ w tex c tex1 w1 hcr
  simp only [resolveSize, hrel, if_true, Except.ok.injEq, Prod.mk.injEq] at hsz
  obtain ⟨hw, hh, hp⟩ := hsz
  rcases hcase with ⟨hd, _, hw1⟩ | ⟨hd, hdb⟩
  · rw [hw1, hd, ← hw, ← hh]
    simp [allocRequests_append, allocRequests]
  · obtain ⟨_, _, _, hcase2⟩ := createDepthBuffer_ok _ _ _ width height provider tex1 w1 hdb
    rcases hcase2 with ⟨p, _, _, hp2, _⟩ | ⟨_, _, _, _, _, hw1⟩
    · rw [← hp] at hp2
      cases hp2
    · rw [hw1, hd, ← hw, ← hh]
      simp [allocRequests_append, allocRequests]

/-- On an initialised factory a relative-sized render-target setup with no
depth buffer or a private one, on a fresh record, with valid parameters and
allocations that can be served, returns `Valid` whenever the two relative
sizes are positive, and the `AllocRenderTarget` calls issued carry them. -/
theorem SetupResource_relSize_returns (formats : PixelFormats)
    (f : d3d12TextureFactory) (w : World) (tex : texture)
    (hf : f.isValid = true)
    (hunset : tex.isUnset)
    (hmode : tex.Setup.ShouldSetupAsRenderTarget = true)
    (hmips : tex.Setup.NumMipMaps = 1)
    (htype : tex.Setup.TexType = TextureType.Texture2D)
    (hfmt : formats.IsValidRenderTargetColorFormat tex.Setup.ColorFormat = true)
    (hrel : tex.Setup.IsRelSizeRenderTarget = true)
    (hprivate : tex.Setup.HasDepth = true → tex.Setup.HasSharedDepth = false)
    (hcolor : formats.backendSupports tex.Setup.ColorFormat = true)
    (hdepthfmt : tex.Setup.HasDepth = true →
      formats.backendSupports tex.Setup.DepthFormat = true)
    (hrtv : w.freeRTV ≠ [])
    (hdsv : tex.Setup.HasDepth = true → w.freeDSV ≠ [])
    (hwidth : 0 < relDim w.FramebufferWidth tex.Setup.RelWidth)
    (hheight : 0 < relDim w.FramebufferHeight tex.Setup.RelHeight) :
    ∃ tex1 w1,
      SetupResource formats f w tex = Except.ok (ResourceState.Valid, tex1, w1) ∧
      allocRequests w1.log = allocRequests w.log ++
        (relDim w.FramebufferWidth tex.Setup.RelWidth,
          relDim w.FramebufferHeight tex.Setup.RelHeight, tex.Setup.ColorFormat) ::
        (if tex.Setup.HasDepth = true then
          [(relDim w.FramebufferWidth tex.Setup.RelWidth,
            relDim w.FramebufferHeight tex.Setup.RelHeight, tex.Setup.DepthFormat)]
         else []) := by
  obtain ⟨h1, h2, h3, h4⟩ := hunset
  obtain ⟨hpix, hfile⟩ := modes_of_renderTarget tex.Setup hmode
  have hsz : resolveSize w tex.Setup =
      Except.ok (relDim w.FramebufferWidth tex.Setup.RelWidth,
        relDim w.FramebufferHeight tex.Setup.RelHeight, none) := by
    simp [resolveSize, hrel]
  obtain ⟨slot, rest, hfree⟩ : ∃ slot rest, w.freeRTV = slot :: rest := by
    cases hw : w.freeRTV with
    | nil => exact absurd hw hrtv
    | cons a l => exact ⟨a, l, rfl⟩
  cases hd : tex.Setup.HasDepth with
  | false =>
    simp [SetupResource, createRenderTarget, o_assert_dbg, hf, hpix, hfile, hmode, h1, h2, h3, h4,
      hmips, htype, hfmt, hsz, hwidth, hheight, hcolor, AllocRenderTarget, Allocate, hfree, hd,
      IsValid, Bind.bind, Except.bind, Pure.pure, Except.pure]
    refine ⟨_, _, ⟨rfl, rfl⟩, ?_⟩
    simp [allocRequests_append, allocRequests]
  | true =>
    obtain ⟨dslot, drest, hdfree⟩ : ∃ slot rest, w.freeDSV = slot :: rest := by
      cases hw : w.freeDSV with
      | nil => exact absurd hw (hdsv hd)
      | cons a l => exact ⟨a, l, rfl⟩
    have hs := hprivate hd
    have hdf := hdepthfmt hd
    simp [SetupResource, createRenderTarget, createDepthBuffer, o_assert_dbg, hf, hpix, hfile,
      hmode, h1, h2, h3, h4, hmips, htype, hfmt, hsz, hwidth, hheight, hcolor, hdf,
      AllocRenderTarget, Allocate, hfree, hdfree, hd, hs, IsValid, Bind.bind, Except.bind,
      Pure.pure, Except.pure]
    refine ⟨_, _, ⟨rfl, rfl⟩, ?_⟩
    simp [allocRequests_append, allocRequests]

/-- C6 as amended: for every render-target setup sized relative to the display
framebuffer, the `AllocRenderTarget` calls of every returning `SetupResource`
are one for the color buffer and, when a depth buffer is requested (it is
private then), one for the depth buffer, each given the width
`int32(FramebufferWidth * RelWidth)` and the height `int32(FramebufferHeight *
RelHeight)`, the products being taken in 32-bit float arithmetic on the
display attributes at the time of the call (not the floor of the exact
product).  And the call does return `Valid` whenever those two values are
positive, on an initialised factory and a fresh record with one mip level, 2D
type, a valid color format, no shared depth buffer, and allocations that can
be served. -/
theorem SetupResource_relSize_alloc_sizes (formats : PixelFormats)
    (f : d3d12TextureFactory) (w : World) (tex : texture)
    (hmode : tex.Setup.ShouldSetupAsRenderTarget = true)
    (hrel : tex.Setup.IsRelSizeRenderTarget = true) :
    (∀ c tex1 w1, SetupResource formats f w tex = Except.ok (c, tex1, w1) →
      c = ResourceState.Valid ∧
      0 < relDim w.FramebufferWidth tex.Setup.RelWidth ∧
      0 < relDim w.FramebufferHeight tex.Setup.RelHeight ∧
      allocRequests w1.log = allocRequests w.log ++
        (relDim w.FramebufferWidth tex.Setup.RelWidth,
          relDim w.FramebufferHeight tex.Setup.RelHeight, tex.Setup.ColorFormat) ::
        (if tex.Setup.HasDepth = true then
          [(relDim w.FramebufferWidth tex.Setup.RelWidth,
            relDim w.FramebufferHeight tex.Setup.RelHeight, tex.Setup.DepthFormat)]
         else [])) ∧
    (f.isValid = true → tex.isUnset →
      tex.Setup.NumMipMaps = 1 → tex.Setup.TexType = TextureType.Texture2D →
      formats.IsValidRenderTargetColorFormat tex.Setup.ColorFormat = true →
      (tex.Setup.HasDepth = true → tex.Setup.HasSharedDepth = false) →
      formats.backendSupports tex.Setup.ColorFormat = true →
      (tex.Setup.HasDepth = true → formats.backendSupports tex.Setup.DepthFormat = true) →
      w.freeRTV ≠ [] → (tex.Setup.HasDepth = true → w.freeDSV ≠ []) →
      0 < relDim w.FramebufferWidth tex.Setup.RelWidth →
      0 < relDim w.FramebufferHeight tex.Setup.RelHeight →
      ∃ tex1 w1, SetupResource formats f w tex = Except.ok (ResourceState.Valid, tex1, w1)) := by
  refine ⟨?_, ?_⟩
  · intro c tex1 w1 h
    have hcr := SetupResource_renderTarget_ok _ f w tex c tex1 w1 hmode h
    obtain ⟨hc, _, width, height, provider, _, _, hsz, hw, hh, _⟩ :=
      createRenderTarget_ok _ w tex c tex1 w1 hcr
    simp only [resolveSize, hrel, if_true, Except.ok.injEq, Prod.mk.injEq] at hsz
    refine ⟨hc, ?_, ?_, SetupResource_relSize_requests formats f w tex c tex1 w1 hmode hrel h⟩
    · rw [hsz.1]; exact hw
    · rw [hsz.2.1]; exact hh
  · intro hf hunset hmips htype hfmt hprivate hcolor hdepthfmt hrtv hdsv hwidth hheight
    obtain ⟨tex1, w1, h, _⟩ := SetupResource_relSize_returns formats f w tex hf hunset hmode
      hmips htype hfmt hrel hprivate hcolor hdepthfmt hrtv hdsv hwidth hheight
    exact ⟨tex1, w1, h⟩

/-- Witness for the amended C6: display framebuffer 800 by 600 and the
fractions (0.5, 0.5); the call returns `Valid`, and color buffer and private
depth buffer are both allocated 400 by 300, here also the floors of the exact
products. -/
theorem SetupResource_relSize_alloc_sizes_witness :
    relDim 800 oneHalf = 400 ∧ relDim 600 oneHalf = 300 ∧
    exactFloor 800 oneHalf = 400 ∧ exactFloor 600 oneHalf = 300 ∧
    ∃ tex1 w1,
      SetupResource sampleFormats ⟨true⟩ (sampleWorld []) (freshTexture (relSetup oneHalf)) =
        Except.ok (ResourceState.Valid, tex1, w1) ∧
      allocRequests w1.log = [(400, 300, 1), (400, 300, 2)] := by
  have h := SetupResource_relSize_alloc_sizes sampleFormats ⟨true⟩ (sampleWorld [])
    (freshTexture (relSetup oneHalf)) rfl rfl
  obtain ⟨tex1, w1, hret⟩ := h.2 rfl ⟨rfl, rfl, rfl, rfl⟩ rfl rfl rfl (fun _ => rfl) rfl
    (fun _ => rfl) (by simp [sampleWorld]) (fun _ => by simp [sampleWorld])
    (by decide) (by decide)
  refine ⟨by decide, by decide, by decide, by decide, tex1, w1, hret, ?_⟩
  have hreq := (h.1 ResourceState.Valid tex1 w1 hret).2.2.2
  rw [hreq]
  decide

end Oryol
